import Mathlib

/-!
Verification development for the version-edit core of the MoonKV storage
engine (`db/version_edit.h`).  The C++ data model and mutation API are
shallowly embedded: machine integers become `Nat` (with explicit `% 2 ^ 64`
where 64-bit wraparound matters), `std::set` becomes a strictly-sorted
duplicate-free list, `std::map<uint32_t,uint32_t>` becomes an association
list, `InternalKey` becomes its byte string, and every method whose body
contains an `assert` becomes a function into `Option` (assertion failure is
`none`).  Methods declared in the header but implemented in a translation
unit that is not part of the sources (`EncodeTo`, `DecodeFrom`,
`PackFileNumberAndPathId`, and the types from `wal_edit.h`,
`blob_file_addition.h`, `blob_file_garbage.h`, `dbformat.h`) are modelled
from the specification, as marked in their doc comments.
-/

/-- Modelled from the spec: `kMaxSequenceNumber` lives in the external
`db/dbformat.h`; it is the largest sequence number, the usual sentinel
`(1 <<< 56) - 1`.  The C++ `SequenceNumber` typedef (`uint64_t`) is
embedded as `Nat`.  Only the facts `0 < kMaxSequenceNumber` and its use
as the default `smallest_seqno` matter here. -/
def kMaxSequenceNumber : Nat := 2 ^ 56 - 1

/-- Modelled from the spec: `InternalKey` lives in the external
`db/dbformat.h`; the spec treats it as an ordered byte string, so the
embedding uses the underlying byte string (`rep_`) directly. -/
abbrev InternalKey := String

/-- Modelled from the spec: `InternalKey::Valid()` of the external
`db/dbformat.h`; per the spec a cursor is valid iff its key is non-empty. -/
def InternalKey.Valid (k : InternalKey) : Bool := k.length != 0

/-- Modelled from the spec: `InternalKey::size()` is the length of the
underlying byte string. -/
def InternalKey.size (k : InternalKey) : Nat := k.length

/-- Source: `Tag` enumeration (`version_edit.h`, lines 35-73).  The numeric values
follow the C++ enumerator initialisers, with implicit `previous + 1` for
enumerators without one. -/
inductive Tag where
  | kComparator
  | kLogNumber
  | kNextFileNumber
  | kLastSequence
  | kCompactCursor
  | kDeletedFile
  | kNewFile
  | kPrevLogNumber
  | kMinLogNumberToKeep
  | kNewFile2
  | kNewFile3
  | kNewFile4
  | kColumnFamily
  | kColumnFamilyAdd
  | kColumnFamilyDrop
  | kMaxColumnFamily
  | kInAtomicGroup
  | kBlobFileAddition
  | kBlobFileGarbage
  | kTagSafeIgnoreMask
  | kDbId
  | kBlobFileAddition_DEPRECATED
  | kBlobFileGarbage_DEPRECATED
  | kWalAddition
  | kWalDeletion
  | kFullHistoryTsLow
  | kWalAddition2
  | kWalDeletion2
deriving DecidableEq

/-- Numeric value of each `Tag` enumerator, exactly as assigned by the C++
enum (`kTagSafeIgnoreMask = 1 << 13`, then `kDbId` and the following
enumerators continue with `+ 1`). -/
def Tag.val : Tag → Nat
  | .kComparator => 1
  | .kLogNumber => 2
  | .kNextFileNumber => 3
  | .kLastSequence => 4
  | .kCompactCursor => 5
  | .kDeletedFile => 6
  | .kNewFile => 7
  | .kPrevLogNumber => 9
  | .kMinLogNumberToKeep => 10
  | .kNewFile2 => 100
  | .kNewFile3 => 102
  | .kNewFile4 => 103
  | .kColumnFamily => 200
  | .kColumnFamilyAdd => 201
  | .kColumnFamilyDrop => 202
  | .kMaxColumnFamily => 203
  | .kInAtomicGroup => 300
  | .kBlobFileAddition => 400
  | .kBlobFileGarbage => 401
  | .kTagSafeIgnoreMask => 2 ^ 13
  | .kDbId => 2 ^ 13 + 1
  | .kBlobFileAddition_DEPRECATED => 2 ^ 13 + 2
  | .kBlobFileGarbage_DEPRECATED => 2 ^ 13 + 3
  | .kWalAddition => 2 ^ 13 + 4
  | .kWalDeletion => 2 ^ 13 + 5
  | .kFullHistoryTsLow => 2 ^ 13 + 6
  | .kWalAddition2 => 2 ^ 13 + 7
  | .kWalDeletion2 => 2 ^ 13 + 8

/-- Source: `NewFileCustomTag` enumeration (`version_edit.h`, lines 75-98). -/
inductive NewFileCustomTag where
  | kTerminate
  | kNeedCompaction
  | kMinLogNumberToKeepHack
  | kOldestBlobFileNumber
  | kOldestAncesterTime
  | kFileCreationTime
  | kFileChecksum
  | kFileChecksumFuncName
  | kTemperature
  | kMinTimestamp
  | kMaxTimestamp
  | kUniqueId
  | kCustomTagNonSafeIgnoreMask
  | kPathId
deriving DecidableEq

/-- Numeric value of each `NewFileCustomTag` enumerator
(`kCustomTagNonSafeIgnoreMask = 1 << 6`, `kPathId` continues with `+ 1`). -/
def NewFileCustomTag.val : NewFileCustomTag → Nat
  | .kTerminate => 1
  | .kNeedCompaction => 2
  | .kMinLogNumberToKeepHack => 3
  | .kOldestBlobFileNumber => 4
  | .kOldestAncesterTime => 5
  | .kFileCreationTime => 6
  | .kFileChecksum => 7
  | .kFileChecksumFuncName => 8
  | .kTemperature => 9
  | .kMinTimestamp => 10
  | .kMaxTimestamp => 11
  | .kUniqueId => 12
  | .kCustomTagNonSafeIgnoreMask => 2 ^ 6
  | .kPathId => 2 ^ 6 + 1

/-- Source: `kFileNumberMask` (`version_edit.h`, line 103). -/
def kFileNumberMask : Nat := 0x0FFFFFFFFFFFFFFF

/-- Source: `kUnknownOldestAncesterTime` (`version_edit.h`, line 104). -/
def kUnknownOldestAncesterTime : Nat := 0

/-- Source: `kUnknownFileCreationTime` (`version_edit.h`, line 105). -/
def kUnknownFileCreationTime : Nat := 0

/-- Modelled from the spec: `kInvalidBlobFileNumber` lives in the external
blob headers; per the comment in `version_edit.h` line 252, `0 is an
invalid value`. -/
def kInvalidBlobFileNumber : Nat := 0

/-- Modelled from the spec: the unknown-checksum sentinel of the external
checksum helper header (empty string). -/
def kUnknownFileChecksum : String := ""

/-- Modelled from the spec: the unknown-checksum-function sentinel of the
external checksum helper header. -/
def kUnknownFileChecksumFuncName : String := "Unknown"

/-- Modelled from the spec: `PackFileNumberAndPathId` is declared `extern`
(`version_edit.h`, line 107) and implemented outside the sources.  The spec
gives `packed = number | (pathId << 60)`, a 64-bit computation, hence the
explicit `% 2 ^ 64`. -/
def PackFileNumberAndPathId (number path_id : Nat) : Nat :=
  (number ||| path_id <<< 60) % 2 ^ 64

/-- Source: `UniqueId64x2` (`version_edit.h`, line 109): `std::array<uint64_t, 2>`. -/
abbrev UniqueId64x2 := Nat × Nat

/-- Modelled from the spec: `PositionKeyList` lives in the external
`nvm/index/position_key_list.h`; the spec describes a `childrenRanks_`
entry as positional key-offset data for one overlapping next-level file,
carried opaquely by the version edit, so it is embedded as a list of
offsets. -/
structure PositionKeyList where
  positions : List Nat := []
deriving DecidableEq

/-- Modelled from the spec: `Temperature` lives in the external
`rocksdb/advanced_options.h`; carried opaquely by the metadata. -/
inductive Temperature where
  | kUnknown
  | kHot
  | kWarm
  | kCold
deriving DecidableEq

/-- Source: `FileDescriptor` (`version_edit.h`, lines 116-192).  The
`table_reader` pointer is an external-owned opaque handle (always `nullptr`
out of every constructor here) and is not part of the embedded state; the
two `std::map<uint32_t,uint32_t>` members are embedded as association
lists. -/
structure FileDescriptor where
  packed_number_and_path_id : Nat
  sub_number_to_reference_key : List (Nat × Nat)
  father_number_to_reference_key : List (Nat × Nat)
  file_size : Nat
  sub_file_size : Nat
  smallest_seqno : Nat
  largest_seqno : Nat
deriving DecidableEq

/-- The delegate 8-argument `FileDescriptor` constructor
(`version_edit.h`, lines 144-154). -/
def FileDescriptor.ofAll (number path_id : Nat)
    (sub father : List (Nat × Nat)) (fsize sub_fsize : Nat)
    (smallest largest : Nat) : FileDescriptor :=
  { packed_number_and_path_id := PackFileNumberAndPathId number path_id
    sub_number_to_reference_key := sub
    father_number_to_reference_key := father
    file_size := fsize
    sub_file_size := sub_fsize
    smallest_seqno := smallest
    largest_seqno := largest }

/-- The 3-argument constructor `FileDescriptor(number, path_id, file_size)`
(`version_edit.h`, lines 130-131): seqnos default to
`(kMaxSequenceNumber, 0)`. -/
def FileDescriptor.ofSize (number path_id fsize : Nat) : FileDescriptor :=
  FileDescriptor.ofAll number path_id [] [] fsize 0 kMaxSequenceNumber 0

/-- The default constructor `FileDescriptor()` (`version_edit.h`,
line 128): delegates to `FileDescriptor(0, 0, 0)`. -/
def FileDescriptor.mkDefault : FileDescriptor :=
  FileDescriptor.ofSize 0 0 0

/-- The 5-argument constructor with explicit seqnos (`version_edit.h`,
lines 133-135). -/
def FileDescriptor.ofSizeSeq (number path_id fsize : Nat)
    (smallest largest : Nat) : FileDescriptor :=
  FileDescriptor.ofAll number path_id [] [] fsize 0 smallest largest

/-- The 4-argument constructor with a sub-file size (`version_edit.h`,
lines 137-138): seqnos default to `(kMaxSequenceNumber, 0)`. -/
def FileDescriptor.ofSizes (number path_id fsize sub_fsize : Nat) :
    FileDescriptor :=
  FileDescriptor.ofAll number path_id [] [] fsize sub_fsize
    kMaxSequenceNumber 0

/-- The 6-argument constructor with a sub-file size and explicit seqnos
(`version_edit.h`, lines 140-142). -/
def FileDescriptor.ofSizesSeq (number path_id fsize sub_fsize : Nat)
    (smallest largest : Nat) : FileDescriptor :=
  FileDescriptor.ofAll number path_id [] [] fsize sub_fsize smallest largest

/-- Source: `FileDescriptor::GetNumber` (`version_edit.h`, lines 171-173). -/
def FileDescriptor.GetNumber (fd : FileDescriptor) : Nat :=
  fd.packed_number_and_path_id &&& kFileNumberMask

/-- Source: `FileDescriptor::GetPathId` (`version_edit.h`, lines 174-177); the
`static_cast<uint32_t>` is the explicit `% 2 ^ 32`. -/
def FileDescriptor.GetPathId (fd : FileDescriptor) : Nat :=
  fd.packed_number_and_path_id / (kFileNumberMask + 1) % 2 ^ 32

/-- Source: `FileDescriptor::GetFileSize` (`version_edit.h`, line 178). -/
def FileDescriptor.GetFileSize (fd : FileDescriptor) : Nat := fd.file_size

/-- Source: `FileDescriptor::GetSubFileSize` (`version_edit.h`, line 179). -/
def FileDescriptor.GetSubFileSize (fd : FileDescriptor) : Nat :=
  fd.sub_file_size

/-- Source: `FileMetaData` (`version_edit.h`, lines 206-417).  The external opaque
members (`table_reader_handle`, the atomic `stats`) are not part of the
embedded state; every other member is kept with its C++ in-class default. -/
structure FileMetaData where
  fd : FileDescriptor := FileDescriptor.mkDefault
  smallest : InternalKey := ""
  largest : InternalKey := ""
  compensated_file_size : Nat := 0
  num_entries : Nat := 0
  num_deletions : Nat := 0
  raw_key_size : Nat := 0
  raw_value_size : Nat := 0
  refs : Int := 0
  is_deleted : Bool := false
  children_ranks_ : List PositionKeyList := []
  total_entries_ : Nat := 0
  reference_entries_ : Nat := 0
  merge_entries_ : Nat := 0
  being_compacted : Bool := false
  init_stats_from_file : Bool := false
  marked_for_compaction : Bool := false
  temperature : Temperature := Temperature.kUnknown
  oldest_blob_file_number : Nat := kInvalidBlobFileNumber
  oldest_ancester_time : Nat := kUnknownOldestAncesterTime
  file_creation_time : Nat := kUnknownFileCreationTime
  file_checksum : String := kUnknownFileChecksum
  file_checksum_func_name : String := kUnknownFileChecksumFuncName
  min_timestamp : String := ""
  max_timestamp : String := ""
  unique_id : UniqueId64x2 := (0, 0)
deriving DecidableEq

/-- The widest `FileMetaData` constructor, carrying `merge_entries`
(`version_edit.h`, lines 325-353). -/
def FileMetaData.ofFull (file file_path_id : Nat)
    (children_ranks : List PositionKeyList)
    (total_entries reference_entries merge_entries : Nat)
    (sub father : List (Nat × Nat)) (file_size sub_file_size : Nat)
    (smallest_key largest_key : InternalKey)
    (smallest_seq largest_seq : Nat)
    (marked_for_compact : Bool) (temp : Temperature)
    (oldest_blob_file oldest_anc_time f_creation_time : Nat)
    (checksum checksum_func_name : String)
    (min_ts max_ts : String) (uid : UniqueId64x2) : FileMetaData :=
  { fd := FileDescriptor.ofAll file file_path_id sub father file_size
      sub_file_size smallest_seq largest_seq
    smallest := smallest_key
    largest := largest_key
    children_ranks_ := children_ranks
    total_entries_ := total_entries
    reference_entries_ := reference_entries
    merge_entries_ := merge_entries
    marked_for_compaction := marked_for_compact
    temperature := temp
    oldest_blob_file_number := oldest_blob_file
    oldest_ancester_time := oldest_anc_time
    file_creation_time := f_creation_time
    file_checksum := checksum
    file_checksum_func_name := checksum_func_name
    min_timestamp := min_ts
    max_timestamp := max_ts
    unique_id := uid }

/-- The `FileMetaData` constructor without `merge_entries`
(`version_edit.h`, lines 296-323); `merge_entries_` keeps its default 0. -/
def FileMetaData.ofMid (file file_path_id : Nat)
    (children_ranks : List PositionKeyList)
    (total_entries reference_entries : Nat)
    (sub father : List (Nat × Nat)) (file_size sub_file_size : Nat)
    (smallest_key largest_key : InternalKey)
    (smallest_seq largest_seq : Nat)
    (marked_for_compact : Bool) (temp : Temperature)
    (oldest_blob_file oldest_anc_time f_creation_time : Nat)
    (checksum checksum_func_name : String)
    (min_ts max_ts : String) (uid : UniqueId64x2) : FileMetaData :=
  FileMetaData.ofFull file file_path_id children_ranks total_entries
    reference_entries 0 sub father file_size sub_file_size smallest_key
    largest_key smallest_seq largest_seq marked_for_compact temp
    oldest_blob_file oldest_anc_time f_creation_time checksum
    checksum_func_name min_ts max_ts uid

/-- The basic `FileMetaData` constructor (`version_edit.h`, lines 279-294):
delegates with empty `children_ranks`, zero entry counters, empty maps and
zero `sub_file_size`. -/
def FileMetaData.ofBasic (file file_path_id file_size : Nat)
    (smallest_key largest_key : InternalKey)
    (smallest_seq largest_seq : Nat)
    (marked_for_compact : Bool) (temp : Temperature)
    (oldest_blob_file oldest_anc_time f_creation_time : Nat)
    (checksum checksum_func_name : String)
    (min_ts max_ts : String) (uid : UniqueId64x2) : FileMetaData :=
  FileMetaData.ofFull file file_path_id [] 0 0 0 [] [] file_size 0
    smallest_key largest_key smallest_seq largest_seq marked_for_compact
    temp oldest_blob_file oldest_anc_time f_creation_time checksum
    checksum_func_name min_ts max_ts uid

/-- The `smallest` update of `UpdateBoundariesForRange` (`version_edit.h`,
lines 366-368): `if (smallest.size() == 0 || icmp.Compare(start, smallest)
< 0) smallest = start`. -/
def smallestStep (cmp : InternalKey → InternalKey → Int)
    (smallest start : InternalKey) : InternalKey :=
  if smallest.size = 0 ∨ cmp start smallest < 0 then start else smallest

/-- The `largest` update of `UpdateBoundariesForRange` (`version_edit.h`,
lines 369-371): `if (largest.size() == 0 || icmp.Compare(largest, end) < 0)
largest = end`. -/
def largestStep (cmp : InternalKey → InternalKey → Int)
    (largest end_ : InternalKey) : InternalKey :=
  if largest.size = 0 ∨ cmp largest end_ < 0 then end_ else largest

/-- Source: `FileMetaData::UpdateBoundariesForRange` (`version_edit.h`,
lines 363-374).  The comparator is passed as an integer-valued compare
function, mirroring `InternalKeyComparator::Compare`.  The two key updates
read the pre-call `smallest`/`largest` (the C++ second `if` reads
`largest`, which the first `if` never writes), and the seqno updates are
`std::min`/`std::max` against the pre-call descriptor. -/
def FileMetaData.UpdateBoundariesForRange (f : FileMetaData)
    (start end_ : InternalKey) (seqno : Nat)
    (cmp : InternalKey → InternalKey → Int) : FileMetaData :=
  { f with
    smallest := smallestStep cmp f.smallest start
    largest := largestStep cmp f.largest end_
    fd := { f.fd with
             smallest_seqno := min f.fd.smallest_seqno seqno
             largest_seqno := max f.fd.largest_seqno seqno } }

/-- Modelled from the spec: `BlobFileAddition` lives in the external
`db/blob/blob_file_addition.h`; its constructor arguments are visible at
the `AddBlobFile` call site (`version_edit.h`, lines 687-693). -/
structure BlobFileAddition where
  blob_file_number : Nat
  total_blob_count : Nat
  total_blob_bytes : Nat
  checksum_method : String
  checksum_value : String
deriving DecidableEq

/-- Modelled from the spec: `BlobFileGarbage` lives in the external
`db/blob/blob_file_garbage.h`; its constructor arguments are visible at
the `AddBlobFileGarbage` call site (`version_edit.h`, lines 712-717). -/
structure BlobFileGarbage where
  blob_file_number : Nat
  garbage_blob_count : Nat
  garbage_blob_bytes : Nat
deriving DecidableEq

/-- Modelled from the spec: `WalMetadata` lives in the external
`db/wal_edit.h`; the spec treats it as opaque per-WAL metadata (a synced
size watermark). -/
structure WalMetadata where
  synced_size : Option Nat := none
deriving DecidableEq

/-- Ordered-set insertion with deduplication: the embedding of
`std::set::emplace` / `std::set::insert` on a strictly-sorted
duplicate-free list, for the strict order `lt`. -/
def insertSorted (lt : α → α → Bool) (x : α) : List α → List α
  | [] => [x]
  | y :: ys =>
    if lt x y then x :: y :: ys
    else if lt y x then y :: insertSorted lt x ys
    else y :: ys

/-- The `std::pair<int, uint64_t>` lexicographic `operator<` used by
`VersionEdit::DeletedFiles`. -/
def pairLtIN (a b : Int × Nat) : Bool :=
  decide (a.1 < b.1 ∨ (a.1 = b.1 ∧ a.2 < b.2))

/-- The `std::pair<int, std::string>` lexicographic `operator<` used by
`VersionEdit::NewGuards` / `DeletedGuards`. -/
def pairLtIS (a b : Int × String) : Bool :=
  decide (a.1 < b.1 ∨ (a.1 = b.1 ∧ a.2 < b.2))

/-- Source: `VersionEdit` (`version_edit.h`, lines 458-890), with the C++ member
defaults.  `deleted_files_`, `new_guard_` and `deleted_guard_` are
`std::set`s, embedded as strictly-sorted duplicate-free lists under the
pair orders above; `wal_deletion_` is the external `WalDeletion`
watermark, modelled from the spec as `Option Nat` (`IsEmpty` iff `none`);
`max_level_`, a scratch member written only by the decoder internals, is
not part of the embedded state. -/
structure VersionEdit where
  db_id_ : String := ""
  comparator_ : String := ""
  log_number_ : Nat := 0
  prev_log_number_ : Nat := 0
  next_file_number_ : Nat := 0
  max_column_family_ : Nat := 0
  min_log_number_to_keep_ : Nat := 0
  last_sequence_ : Nat := 0
  has_db_id_ : Bool := false
  has_comparator_ : Bool := false
  has_log_number_ : Bool := false
  has_prev_log_number_ : Bool := false
  has_next_file_number_ : Bool := false
  has_max_column_family_ : Bool := false
  has_min_log_number_to_keep_ : Bool := false
  has_last_sequence_ : Bool := false
  compact_cursors_ : List (Int × InternalKey) := []
  deleted_files_ : List (Int × Nat) := []
  new_files_ : List (Int × FileMetaData) := []
  new_table_files_ : List FileMetaData := []
  new_guard_ : List (Int × String) := []
  deleted_guard_ : List (Int × String) := []
  blob_file_additions_ : List BlobFileAddition := []
  blob_file_garbages_ : List BlobFileGarbage := []
  wal_additions_ : List (Nat × WalMetadata) := []
  wal_deletion_ : Option Nat := none
  column_family_ : Nat := 0
  is_column_family_drop_ : Bool := false
  is_column_family_add_ : Bool := false
  column_family_name_ : String := ""
  is_in_atomic_group_ : Bool := false
  remaining_entries_ : Nat := 0
  full_history_ts_low_ : String := ""
deriving DecidableEq

/-- A freshly constructed (equivalently, `Clear()`ed) `VersionEdit`: every
member at its in-class default. -/
def VersionEdit.init : VersionEdit := {}

/-- Source: `VersionEdit::SetDBId` (`version_edit.h`, lines 462-465). -/
def VersionEdit.SetDBId (e : VersionEdit) (db_id : String) : VersionEdit :=
  { e with has_db_id_ := true, db_id_ := db_id }

/-- Source: `VersionEdit::HasDbId` (`version_edit.h`, line 466). -/
def VersionEdit.HasDbId (e : VersionEdit) : Bool := e.has_db_id_

/-- Source: `VersionEdit::GetDbId` (`version_edit.h`, line 467). -/
def VersionEdit.GetDbId (e : VersionEdit) : String := e.db_id_

/-- Source: `VersionEdit::SetComparatorName` (`version_edit.h`, lines 469-472). -/
def VersionEdit.SetComparatorName (e : VersionEdit) (name : String) :
    VersionEdit :=
  { e with has_comparator_ := true, comparator_ := name }

/-- Source: `VersionEdit::HasComparatorName` (`version_edit.h`, line 473). -/
def VersionEdit.HasComparatorName (e : VersionEdit) : Bool :=
  e.has_comparator_

/-- Source: `VersionEdit::GetComparatorName` (`version_edit.h`, line 474). -/
def VersionEdit.GetComparatorName (e : VersionEdit) : String :=
  e.comparator_

/-- Source: `VersionEdit::SetLogNumber` (`version_edit.h`, lines 476-479). -/
def VersionEdit.SetLogNumber (e : VersionEdit) (num : Nat) : VersionEdit :=
  { e with has_log_number_ := true, log_number_ := num }

/-- Source: `VersionEdit::HasLogNumber` (`version_edit.h`, line 480). -/
def VersionEdit.HasLogNumber (e : VersionEdit) : Bool := e.has_log_number_

/-- Source: `VersionEdit::GetLogNumber` (`version_edit.h`, line 481). -/
def VersionEdit.GetLogNumber (e : VersionEdit) : Nat := e.log_number_

/-- Source: `VersionEdit::SetPrevLogNumber` (`version_edit.h`, lines 483-486). -/
def VersionEdit.SetPrevLogNumber (e : VersionEdit) (num : Nat) :
    VersionEdit :=
  { e with has_prev_log_number_ := true, prev_log_number_ := num }

/-- Source: `VersionEdit::SetNextFile` (`version_edit.h`, lines 490-493). -/
def VersionEdit.SetNextFile (e : VersionEdit) (num : Nat) : VersionEdit :=
  { e with has_next_file_number_ := true, next_file_number_ := num }

/-- Source: `VersionEdit::SetMaxColumnFamily` (`version_edit.h`, lines 497-500). -/
def VersionEdit.SetMaxColumnFamily (e : VersionEdit) (m : Nat) :
    VersionEdit :=
  { e with has_max_column_family_ := true, max_column_family_ := m }

/-- Source: `VersionEdit::SetMinLogNumberToKeep` (`version_edit.h`,
lines 504-507). -/
def VersionEdit.SetMinLogNumberToKeep (e : VersionEdit) (num : Nat) :
    VersionEdit :=
  { e with has_min_log_number_to_keep_ := true,
           min_log_number_to_keep_ := num }

/-- Source: `VersionEdit::SetLastSequence` (`version_edit.h`, lines 511-514). -/
def VersionEdit.SetLastSequence (e : VersionEdit) (seq : Nat) :
    VersionEdit :=
  { e with has_last_sequence_ := true, last_sequence_ := seq }

/-- Source: `VersionEdit::HasLastSequence` (`version_edit.h`, line 515). -/
def VersionEdit.HasLastSequence (e : VersionEdit) : Bool :=
  e.has_last_sequence_

/-- Source: `VersionEdit::GetLastSequence` (`version_edit.h`, line 516). -/
def VersionEdit.GetLastSequence (e : VersionEdit) : Nat :=
  e.last_sequence_

/-- Source: `VersionEdit::DeleteFile` (`version_edit.h`, lines 519-521):
`deleted_files_.emplace(level, file)`. -/
def VersionEdit.DeleteFile (e : VersionEdit) (level : Int) (file : Nat) :
    VersionEdit :=
  { e with deleted_files_ :=
      insertSorted pairLtIN (level, file) e.deleted_files_ }

/-- Source: `VersionEdit::GetDeletedFiles` (`version_edit.h`, line 525). -/
def VersionEdit.GetDeletedFiles (e : VersionEdit) : List (Int × Nat) :=
  e.deleted_files_

/-- The tail of the three `AddFile` overloads and of `AddTableFile`
(`version_edit.h`, e.g. lines 550-552): `if (!HasLastSequence() ||
largest_seqno > GetLastSequence()) SetLastSequence(largest_seqno)`. -/
def VersionEdit.advanceLastSequence (e : VersionEdit)
    (largest_seqno : Nat) : VersionEdit :=
  if e.HasLastSequence = false ∨ largest_seqno > e.GetLastSequence then
    e.SetLastSequence largest_seqno
  else e

/-- Source: `VersionEdit::AddFile(int, const FileMetaData&)` (`version_edit.h`,
lines 579-585): asserts `f.fd.smallest_seqno <= f.fd.largest_seqno`,
appends to `new_files_`, then advances the last sequence. -/
def VersionEdit.AddFile (e : VersionEdit) (level : Int)
    (f : FileMetaData) : Option VersionEdit :=
  if f.fd.smallest_seqno ≤ f.fd.largest_seqno then
    some (VersionEdit.advanceLastSequence
      { e with new_files_ := e.new_files_ ++ [(level, f)] }
      f.fd.largest_seqno)
  else none

/-- The argument-list `AddFile` overload (`version_edit.h`,
lines 531-553): constructs the `FileMetaData` through the basic
constructor; assert, append and sequence advance are as in the
metadata overload. -/
def VersionEdit.AddFileArgs (e : VersionEdit) (level : Int)
    (file file_path_id file_size : Nat)
    (smallest largest : InternalKey)
    (smallest_seqno largest_seqno : Nat)
    (marked_for_compaction : Bool) (temp : Temperature)
    (oldest_blob_file_number oldest_ancester_time file_creation_time : Nat)
    (file_checksum file_checksum_func_name : String)
    (min_ts max_ts : String) (uid : UniqueId64x2) : Option VersionEdit :=
  e.AddFile level
    (FileMetaData.ofBasic file file_path_id file_size smallest largest
      smallest_seqno largest_seqno marked_for_compaction temp
      oldest_blob_file_number oldest_ancester_time file_creation_time
      file_checksum file_checksum_func_name min_ts max_ts uid)

/-- The index-file `AddFile` overload (`version_edit.h`, lines 554-577):
constructs the `FileMetaData` with `reference_entries_ = total_entries`,
an empty `father` map and zero `sub_file_size`. -/
def VersionEdit.AddFileIdx (e : VersionEdit) (level : Int)
    (file file_path_id : Nat) (children_ranks : List PositionKeyList)
    (total_entries merge_entries : Nat)
    (sub_number_to_reference_key : List (Nat × Nat)) (file_size : Nat)
    (smallest largest : InternalKey)
    (smallest_seqno largest_seqno : Nat)
    (marked_for_compaction : Bool) (temp : Temperature)
    (oldest_blob_file_number oldest_ancester_time file_creation_time : Nat)
    (file_checksum file_checksum_func_name : String)
    (min_ts max_ts : String) (uid : UniqueId64x2) : Option VersionEdit :=
  e.AddFile level
    (FileMetaData.ofFull file file_path_id children_ranks total_entries
      total_entries merge_entries sub_number_to_reference_key [] file_size 0
      smallest largest smallest_seqno largest_seqno marked_for_compaction
      temp oldest_blob_file_number oldest_ancester_time file_creation_time
      file_checksum file_checksum_func_name min_ts max_ts uid)

/-- Source: `VersionEdit::AddTableFile(const FileMetaData&)` (`version_edit.h`,
lines 587-593): asserts the seqno invariant, appends to
`new_table_files_`, then advances the last sequence. -/
def VersionEdit.AddTableFile (e : VersionEdit) (f : FileMetaData) :
    Option VersionEdit :=
  if f.fd.smallest_seqno ≤ f.fd.largest_seqno then
    some (VersionEdit.advanceLastSequence
      { e with new_table_files_ := e.new_table_files_ ++ [f] }
      f.fd.largest_seqno)
  else none

/-- The argument-list `AddTableFile` overload (`version_edit.h`,
lines 595-621): constructs the `FileMetaData` with zero
`reference_entries_`, empty maps and zero `sub_file_size`. -/
def VersionEdit.AddTableFileArgs (e : VersionEdit)
    (file file_path_id total_entries file_size : Nat)
    (smallest largest : InternalKey)
    (smallest_seqno largest_seqno : Nat)
    (marked_for_compaction : Bool) (temp : Temperature)
    (oldest_blob_file_number oldest_ancester_time file_creation_time : Nat)
    (file_checksum file_checksum_func_name : String)
    (min_ts max_ts : String) (uid : UniqueId64x2) : Option VersionEdit :=
  e.AddTableFile
    (FileMetaData.ofFull file file_path_id [] total_entries 0 0 [] []
      file_size 0 smallest largest smallest_seqno largest_seqno
      marked_for_compaction temp oldest_blob_file_number
      oldest_ancester_time file_creation_time file_checksum
      file_checksum_func_name min_ts max_ts uid)

/-- Source: `VersionEdit::AddGuard` (`version_edit.h`, lines 649-651):
`new_guard_.insert(std::make_pair(level, guard))`. -/
def VersionEdit.AddGuard (e : VersionEdit) (level : Int) (guard_ : String) :
    VersionEdit :=
  { e with new_guard_ := insertSorted pairLtIS (level, guard_) e.new_guard_ }

/-- Source: `VersionEdit::DeleteGuard` (`version_edit.h`, lines 653-655). -/
def VersionEdit.DeleteGuard (e : VersionEdit) (level : Int)
    (guard_ : String) : VersionEdit :=
  { e with deleted_guard_ :=
      insertSorted pairLtIS (level, guard_) e.deleted_guard_ }

/-- Source: `VersionEdit::GetNewFiles` (`version_edit.h`, line 664). -/
def VersionEdit.GetNewFiles (e : VersionEdit) : List (Int × FileMetaData) :=
  e.new_files_

/-- Source: `VersionEdit::GetNewTableFiles` (`version_edit.h`, line 665). -/
def VersionEdit.GetNewTableFiles (e : VersionEdit) : List FileMetaData :=
  e.new_table_files_

/-- Source: `VersionEdit::GetNewGuards` (`version_edit.h`, line 666). -/
def VersionEdit.GetNewGuards (e : VersionEdit) : List (Int × String) :=
  e.new_guard_

/-- Source: `VersionEdit::GetDeletedGuards` (`version_edit.h`, line 667). -/
def VersionEdit.GetDeletedGuards (e : VersionEdit) : List (Int × String) :=
  e.deleted_guard_

/-- Source: `VersionEdit::GetCompactCursors` (`version_edit.h`, line 670). -/
def VersionEdit.GetCompactCursors (e : VersionEdit) :
    List (Int × InternalKey) :=
  e.compact_cursors_

/-- Source: `VersionEdit::AddCompactCursor` (`version_edit.h`, lines 671-673):
an unconditional `push_back`. -/
def VersionEdit.AddCompactCursor (e : VersionEdit) (level : Int)
    (cursor : InternalKey) : VersionEdit :=
  { e with compact_cursors_ := e.compact_cursors_ ++ [(level, cursor)] }

/-- Source: `VersionEdit::SetCompactCursors` (`version_edit.h`, lines 674-684):
clears the list, then pushes `(i, v[i])` for each index `i` with
`v[i].Valid()`. -/
def VersionEdit.SetCompactCursors (e : VersionEdit)
    (compact_cursors_by_level : List InternalKey) : VersionEdit :=
  { e with compact_cursors_ :=
      (compact_cursors_by_level.enum.filter
        (fun p => p.2.Valid)).map (fun p => ((p.1 : Int), p.2)) }

/-- Source: `VersionEdit::AddBlobFile` (argument form, `version_edit.h`,
lines 687-693). -/
def VersionEdit.AddBlobFile (e : VersionEdit)
    (blob_file_number total_blob_count total_blob_bytes : Nat)
    (checksum_method checksum_value : String) : VersionEdit :=
  { e with blob_file_additions_ := e.blob_file_additions_ ++
      [{ blob_file_number := blob_file_number
         total_blob_count := total_blob_count
         total_blob_bytes := total_blob_bytes
         checksum_method := checksum_method
         checksum_value := checksum_value }] }

/-- Source: `VersionEdit::GetBlobFileAdditions` (`version_edit.h`,
lines 701-703). -/
def VersionEdit.GetBlobFileAdditions (e : VersionEdit) :
    List BlobFileAddition :=
  e.blob_file_additions_

/-- Source: `VersionEdit::AddBlobFileGarbage` (argument form, `version_edit.h`,
lines 712-717). -/
def VersionEdit.AddBlobFileGarbage (e : VersionEdit)
    (blob_file_number garbage_blob_count garbage_blob_bytes : Nat) :
    VersionEdit :=
  { e with blob_file_garbages_ := e.blob_file_garbages_ ++
      [{ blob_file_number := blob_file_number
         garbage_blob_count := garbage_blob_count
         garbage_blob_bytes := garbage_blob_bytes }] }

/-- Source: `VersionEdit::NumEntries` (`version_edit.h`, lines 764-768): counts
`new_files_`, `deleted_files_`, blob additions, blob garbages, WAL
additions, and the WAL deletion watermark (as `!IsEmpty()`, i.e. 0/1). -/
def VersionEdit.NumEntries (e : VersionEdit) : Nat :=
  e.new_files_.length + e.deleted_files_.length +
    e.blob_file_additions_.length + e.blob_file_garbages_.length +
    e.wal_additions_.length + (if e.wal_deletion_.isSome then 1 else 0)

/-- Source: `VersionEdit::AddWal` (`version_edit.h`, lines 736-739): asserts
`NumEntries() == wal_additions_.size()`, then appends. -/
def VersionEdit.AddWal (e : VersionEdit) (number : Nat)
    (metadata : WalMetadata) : Option VersionEdit :=
  if e.NumEntries = e.wal_additions_.length then
    some { e with wal_additions_ := e.wal_additions_ ++ [(number, metadata)] }
  else none

/-- Source: `VersionEdit::GetWalAdditions` (`version_edit.h`, line 742). -/
def VersionEdit.GetWalAdditions (e : VersionEdit) :
    List (Nat × WalMetadata) :=
  e.wal_additions_

/-- Source: `VersionEdit::IsWalAddition` (`version_edit.h`, line 744). -/
def VersionEdit.IsWalAddition (e : VersionEdit) : Bool :=
  !e.wal_additions_.isEmpty

/-- Source: `VersionEdit::DeleteWalsBefore` (`version_edit.h`, lines 748-751):
asserts `(NumEntries() == 1) == !wal_deletion_.IsEmpty()`, then overwrites
the watermark. -/
def VersionEdit.DeleteWalsBefore (e : VersionEdit) (number : Nat) :
    Option VersionEdit :=
  if decide (e.NumEntries = 1) = e.wal_deletion_.isSome then
    some { e with wal_deletion_ := some number }
  else none

/-- Source: `VersionEdit::GetWalDeletion` (`version_edit.h`, line 753). -/
def VersionEdit.GetWalDeletion (e : VersionEdit) : Option Nat :=
  e.wal_deletion_

/-- Source: `VersionEdit::IsWalDeletion` (`version_edit.h`, line 755). -/
def VersionEdit.IsWalDeletion (e : VersionEdit) : Bool :=
  e.wal_deletion_.isSome

/-- Source: `VersionEdit::IsWalManipulation` (`version_edit.h`, lines 757-761). -/
def VersionEdit.IsWalManipulation (e : VersionEdit) : Bool :=
  let entries := e.NumEntries
  decide (entries > 0) &&
    (decide (entries = e.wal_additions_.length) ||
      decide (entries = if e.wal_deletion_.isSome then 1 else 0))

/-- Source: `VersionEdit::SetColumnFamily` (`version_edit.h`, lines 770-772). -/
def VersionEdit.SetColumnFamily (e : VersionEdit) (cf_id : Nat) :
    VersionEdit :=
  { e with column_family_ := cf_id }

/-- Source: `VersionEdit::AddColumnFamily` (`version_edit.h`, lines 776-782):
asserts `!is_column_family_drop_`, `!is_column_family_add_` and
`NumEntries() == 0`, then records the add marker and name. -/
def VersionEdit.AddColumnFamily (e : VersionEdit) (name : String) :
    Option VersionEdit :=
  if e.is_column_family_drop_ = false ∧ e.is_column_family_add_ = false ∧
      e.NumEntries = 0 then
    some { e with is_column_family_add_ := true,
                  column_family_name_ := name }
  else none

/-- Source: `VersionEdit::DropColumnFamily` (`version_edit.h`, lines 785-790). -/
def VersionEdit.DropColumnFamily (e : VersionEdit) : Option VersionEdit :=
  if e.is_column_family_drop_ = false ∧ e.is_column_family_add_ = false ∧
      e.NumEntries = 0 then
    some { e with is_column_family_drop_ := true }
  else none

/-- Source: `VersionEdit::IsColumnFamilyManipulation` (`version_edit.h`,
lines 792-794). -/
def VersionEdit.IsColumnFamilyManipulation (e : VersionEdit) : Bool :=
  e.is_column_family_add_ || e.is_column_family_drop_

/-- Source: `VersionEdit::MarkAtomicGroup` (`version_edit.h`, lines 800-803). -/
def VersionEdit.MarkAtomicGroup (e : VersionEdit)
    (remaining_entries : Nat) : VersionEdit :=
  { e with is_in_atomic_group_ := true,
           remaining_entries_ := remaining_entries }

/-- Source: `VersionEdit::SetFullHistoryTsLow` (`version_edit.h`, lines 812-815):
asserts the argument is non-empty. -/
def VersionEdit.SetFullHistoryTsLow (e : VersionEdit) (ts : String) :
    Option VersionEdit :=
  if ts ≠ "" then some { e with full_history_ts_low_ := ts } else none

/-- One call of the `VersionEdit` mutation API, with its arguments. -/
inductive Op where
  | setDBId (s : String)
  | setComparatorName (s : String)
  | setLogNumber (n : Nat)
  | setPrevLogNumber (n : Nat)
  | setNextFile (n : Nat)
  | setMaxColumnFamily (n : Nat)
  | setMinLogNumberToKeep (n : Nat)
  | setLastSequence (n : Nat)
  | deleteFile (level : Int) (file : Nat)
  | addFile (level : Int) (f : FileMetaData)
  | addTableFile (f : FileMetaData)
  | addGuard (level : Int) (g : String)
  | deleteGuard (level : Int) (g : String)
  | addCompactCursor (level : Int) (c : InternalKey)
  | setCompactCursors (v : List InternalKey)
  | addBlobFile (number count bytes : Nat) (method value : String)
  | addBlobFileGarbage (number count bytes : Nat)
  | addWal (n : Nat) (m : WalMetadata)
  | deleteWalsBefore (n : Nat)
  | setColumnFamily (n : Nat)
  | addColumnFamily (name : String)
  | dropColumnFamily
  | markAtomicGroup (r : Nat)
  | setFullHistoryTsLow (s : String)
deriving DecidableEq

/-- Apply one mutation-API call; `none` when the assertion of the call fires. -/
def applyOp (e : VersionEdit) : Op → Option VersionEdit
  | .setDBId s => some (e.SetDBId s)
  | .setComparatorName s => some (e.SetComparatorName s)
  | .setLogNumber n => some (e.SetLogNumber n)
  | .setPrevLogNumber n => some (e.SetPrevLogNumber n)
  | .setNextFile n => some (e.SetNextFile n)
  | .setMaxColumnFamily n => some (e.SetMaxColumnFamily n)
  | .setMinLogNumberToKeep n => some (e.SetMinLogNumberToKeep n)
  | .setLastSequence n => some (e.SetLastSequence n)
  | .deleteFile level file => some (e.DeleteFile level file)
  | .addFile level f => e.AddFile level f
  | .addTableFile f => e.AddTableFile f
  | .addGuard level g => some (e.AddGuard level g)
  | .deleteGuard level g => some (e.DeleteGuard level g)
  | .addCompactCursor level c => some (e.AddCompactCursor level c)
  | .setCompactCursors v => some (e.SetCompactCursors v)
  | .addBlobFile n c b m v => some (e.AddBlobFile n c b m v)
  | .addBlobFileGarbage n c b => some (e.AddBlobFileGarbage n c b)
  | .addWal n m => e.AddWal n m
  | .deleteWalsBefore n => e.DeleteWalsBefore n
  | .setColumnFamily n => some (e.SetColumnFamily n)
  | .addColumnFamily name => e.AddColumnFamily name
  | .dropColumnFamily => e.DropColumnFamily
  | .markAtomicGroup r => some (e.MarkAtomicGroup r)
  | .setFullHistoryTsLow s => e.SetFullHistoryTsLow s

/-- Run a sequence of mutation-API calls from a given edit; `none` as soon
as the assertion of one call fires. -/
def runFrom (e : VersionEdit) : List Op → Option VersionEdit
  | [] => some e
  | op :: rest =>
    match applyOp e op with
    | none => none
    | some e' => runFrom e' rest

/-- Build an edit through the mutation API, starting from a fresh
(`Clear()`ed) `VersionEdit`. -/
def runOps (ops : List Op) : Option VersionEdit :=
  runFrom VersionEdit.init ops

/-- Modelled from the spec: one tagged record of the manifest wire format
(spec section 4.5).  `EncodeTo`/`DecodeFrom` are declared in
`version_edit.h` (lines 818-819) but implemented outside the sources, so
the protocol is modelled at the record level: a serialized edit is a
sequence of `(tag, payload)` records, one constructor per
currently-defined tag, abstracting the varint byte coding of each
payload. -/
inductive Record where
  | dbId (s : String)
  | comparator (s : String)
  | logNumber (n : Nat)
  | prevLogNumber (n : Nat)
  | nextFileNumber (n : Nat)
  | maxColumnFamily (n : Nat)
  | minLogNumberToKeep (n : Nat)
  | lastSequence (n : Nat)
  | compactCursor (level : Int) (key : InternalKey)
  | deletedFile (level : Int) (file : Nat)
  | newFile (level : Int) (f : FileMetaData)
  | newTableFile (f : FileMetaData)
  | newGuard (level : Int) (g : String)
  | deletedGuard (level : Int) (g : String)
  | blobFileAddition (b : BlobFileAddition)
  | blobFileGarbage (b : BlobFileGarbage)
  | walAddition (n : Nat) (m : WalMetadata)
  | walDeletion (n : Nat)
  | columnFamily (n : Nat)
  | columnFamilyAdd (name : String)
  | columnFamilyDrop
  | inAtomicGroup (remaining : Nat)
  | fullHistoryTsLow (s : String)
deriving DecidableEq

/-- Modelled from the spec: the (at most one) WAL-deletion record emitted
by `EncodeTo` for the `wal_deletion_` watermark. -/
def walDeletionRecords : Option Nat → List Record
  | some n => [Record.walDeletion n]
  | none => []

/-- Modelled from the spec: `VersionEdit::EncodeTo` (`version_edit.h`,
line 818; body external).  Emits one record per set watermark (a field
paired with a `has_` flag is emitted iff the flag is set; `column_family_`
and `full_history_ts_low_` are emitted iff non-default), and one record
per element of each collection, in the stored order. -/
def VersionEdit.EncodeTo (e : VersionEdit) : List Record :=
  (if e.has_db_id_ then [Record.dbId e.db_id_] else []) ++
  (if e.has_comparator_ then [Record.comparator e.comparator_] else []) ++
  (if e.has_log_number_ then [Record.logNumber e.log_number_] else []) ++
  (if e.has_prev_log_number_ then
    [Record.prevLogNumber e.prev_log_number_] else []) ++
  (if e.has_next_file_number_ then
    [Record.nextFileNumber e.next_file_number_] else []) ++
  (if e.has_max_column_family_ then
    [Record.maxColumnFamily e.max_column_family_] else []) ++
  (if e.has_min_log_number_to_keep_ then
    [Record.minLogNumberToKeep e.min_log_number_to_keep_] else []) ++
  (if e.has_last_sequence_ then
    [Record.lastSequence e.last_sequence_] else []) ++
  e.compact_cursors_.map (fun p => Record.compactCursor p.1 p.2) ++
  e.deleted_files_.map (fun p => Record.deletedFile p.1 p.2) ++
  e.new_files_.map (fun p => Record.newFile p.1 p.2) ++
  e.new_table_files_.map (fun f => Record.newTableFile f) ++
  e.new_guard_.map (fun p => Record.newGuard p.1 p.2) ++
  e.deleted_guard_.map (fun p => Record.deletedGuard p.1 p.2) ++
  e.blob_file_additions_.map (fun b => Record.blobFileAddition b) ++
  e.blob_file_garbages_.map (fun b => Record.blobFileGarbage b) ++
  e.wal_additions_.map (fun p => Record.walAddition p.1 p.2) ++
  walDeletionRecords e.wal_deletion_ ++
  (if e.column_family_ ≠ 0 then
    [Record.columnFamily e.column_family_] else []) ++
  (if e.is_column_family_add_ then
    [Record.columnFamilyAdd e.column_family_name_] else []) ++
  (if e.is_column_family_drop_ then [Record.columnFamilyDrop] else []) ++
  (if e.is_in_atomic_group_ then
    [Record.inAtomicGroup e.remaining_entries_] else []) ++
  (if e.full_history_ts_low_ ≠ "" then
    [Record.fullHistoryTsLow e.full_history_ts_low_] else [])

/-- Modelled from the spec: the dispatch of the decoder on one recognized
record (the per-tag cases of the external `VersionEdit::DecodeFrom`
body): watermark records set the value and its `has_` flag, collection
records append or set-insert the element. -/
def applyRecord (e : VersionEdit) : Record → VersionEdit
  | .dbId s => e.SetDBId s
  | .comparator s => e.SetComparatorName s
  | .logNumber n => e.SetLogNumber n
  | .prevLogNumber n => e.SetPrevLogNumber n
  | .nextFileNumber n => e.SetNextFile n
  | .maxColumnFamily n => e.SetMaxColumnFamily n
  | .minLogNumberToKeep n => e.SetMinLogNumberToKeep n
  | .lastSequence n => e.SetLastSequence n
  | .compactCursor level key => e.AddCompactCursor level key
  | .deletedFile level file => e.DeleteFile level file
  | .newFile level f => { e with new_files_ := e.new_files_ ++ [(level, f)] }
  | .newTableFile f =>
      { e with new_table_files_ := e.new_table_files_ ++ [f] }
  | .newGuard level g => e.AddGuard level g
  | .deletedGuard level g => e.DeleteGuard level g
  | .blobFileAddition b =>
      { e with blob_file_additions_ := e.blob_file_additions_ ++ [b] }
  | .blobFileGarbage b =>
      { e with blob_file_garbages_ := e.blob_file_garbages_ ++ [b] }
  | .walAddition n m =>
      { e with wal_additions_ := e.wal_additions_ ++ [(n, m)] }
  | .walDeletion n => { e with wal_deletion_ := some n }
  | .columnFamily n => e.SetColumnFamily n
  | .columnFamilyAdd name =>
      { e with is_column_family_add_ := true, column_family_name_ := name }
  | .columnFamilyDrop => { e with is_column_family_drop_ := true }
  | .inAtomicGroup r => e.MarkAtomicGroup r
  | .fullHistoryTsLow s => { e with full_history_ts_low_ := s }

/-- Modelled from the spec: `VersionEdit::DecodeFrom` (`version_edit.h`,
line 819; body external), restricted to streams of currently-defined
records: folds the dispatch over a fresh edit.  The `Except` result
mirrors the C++ `Status`; on recognized records decoding always
succeeds. -/
def VersionEdit.DecodeFrom (records : List Record) :
    Except String VersionEdit :=
  Except.ok (records.foldl applyRecord VersionEdit.init)

/-- Well-formedness of an in-memory `VersionEdit`: the `std::set` members
are strictly sorted and duplicate-free, and every value guarded by a
`has_`/marker flag still holds its default while the flag is unset.
Every edit reachable through the mutation API satisfies this. -/
structure EditWF (e : VersionEdit) : Prop where
  df_sorted : e.deleted_files_.Pairwise (fun a b => pairLtIN a b = true)
  ng_sorted : e.new_guard_.Pairwise (fun a b => pairLtIS a b = true)
  dg_sorted : e.deleted_guard_.Pairwise (fun a b => pairLtIS a b = true)
  dbid_default : e.has_db_id_ = false → e.db_id_ = ""
  cmp_default : e.has_comparator_ = false → e.comparator_ = ""
  log_default : e.has_log_number_ = false → e.log_number_ = 0
  prev_default : e.has_prev_log_number_ = false → e.prev_log_number_ = 0
  next_default : e.has_next_file_number_ = false → e.next_file_number_ = 0
  maxcf_default :
    e.has_max_column_family_ = false → e.max_column_family_ = 0
  minlog_default :
    e.has_min_log_number_to_keep_ = false → e.min_log_number_to_keep_ = 0
  lastseq_default : e.has_last_sequence_ = false → e.last_sequence_ = 0
  cfname_default :
    e.is_column_family_add_ = false → e.column_family_name_ = ""
  remaining_default :
    e.is_in_atomic_group_ = false → e.remaining_entries_ = 0

/-- Whether a mutation-API call is one of the file-adding calls
(`AddFile`/`AddTableFile`). -/
def Op.isAddCall : Op → Bool
  | .addFile _ _ => true
  | .addTableFile _ => true
  | _ => false

/-- The largest-seqno argument carried by a file-adding call (0 for other
calls, which never occur in the C2 sequences). -/
def Op.largestSeqArg : Op → Nat
  | .addFile _ f => f.fd.largest_seqno
  | .addTableFile f => f.fd.largest_seqno
  | _ => 0

/-- The comparator contract assumed of `InternalKeyComparator::Compare`
(spec section 6: a total order over internal keys): sign antisymmetry,
identity of comparison-equal keys, and transitivity of strict below. -/
def IcmpOK (cmp : InternalKey → InternalKey → Int) : Prop :=
  (∀ a b, cmp a b < 0 ↔ 0 < cmp b a) ∧
  (∀ a b, cmp a b = 0 → a = b) ∧
  (∀ a b c, cmp a b < 0 → cmp b c < 0 → cmp a c < 0)

/-- One `UpdateBoundariesForRange` call, uncurried over a
`(start, end, seqno)` range triple. -/
def applyRange (cmp : InternalKey → InternalKey → Int) (f : FileMetaData)
    (r : InternalKey × InternalKey × Nat) : FileMetaData :=
  f.UpdateBoundariesForRange r.1 r.2.1 r.2.2 cmp

/-- A concrete comparator on byte strings (lexicographic), used to
instantiate comparator-parametric theorems. -/
def cmpLex (a b : InternalKey) : Int :=
  if a < b then -1 else if b < a then 1 else 0

/-- Concrete range triples used to instantiate the order-independence
theorem. -/
def rangesW : List (InternalKey × InternalKey × Nat) :=
  [("b", "c", 5), ("a", "d", 7)]

/-- A concrete shard-file metadata with equal seqnos, used to instantiate
theorems about `AddTableFile`. -/
def tableFileW : FileMetaData :=
  { fd := FileDescriptor.ofSizeSeq 7 0 10 0 0 }

/-- The edit obtained by adding `tableFileW` to a fresh edit. -/
def editTW : VersionEdit :=
  (VersionEdit.init.AddTableFile tableFileW).getD VersionEdit.init

/-- The edit obtained by `AddColumnFamily` on a fresh edit. -/
def editCFW : VersionEdit :=
  (VersionEdit.init.AddColumnFamily ("cf")).getD VersionEdit.init

/-- The edit obtained by `DeleteWalsBefore 5` on a fresh edit. -/
def editDW : VersionEdit :=
  (VersionEdit.init.DeleteWalsBefore 5).getD VersionEdit.init

/-- A concrete mutation-API call sequence exercising several categories of
the edit state. -/
def opsW : List Op :=
  [Op.setComparatorName ("lex"),
   Op.addFile 2 { fd := FileDescriptor.ofSizeSeq 11 0 10 3 9,
                  smallest := "a", largest := "z" },
   Op.deleteFile 0 9, Op.addGuard 1 ("g"), Op.deleteGuard 3 ("h"),
   Op.addBlobFile 5 10 100 ("crc32c") ("abc"),
   Op.addBlobFileGarbage 5 1 10,
   Op.addCompactCursor 0 ("k"), Op.markAtomicGroup 2,
   Op.setColumnFamily 4]

/-- The edit built by `opsW`. -/
def editW : VersionEdit := (runOps opsW).getD VersionEdit.init

/-- A concrete two-call `AddFile`/`AddTableFile` sequence. -/
def opsC2 : List Op :=
  [Op.addFile 2 { fd := FileDescriptor.ofSizeSeq 11 0 10 3 9 },
   Op.addTableFile { fd := FileDescriptor.ofSizeSeq 12 0 10 1 4 }]

/-- The edit built by `opsC2`. -/
def editC2 : VersionEdit := (runOps opsC2).getD VersionEdit.init

theorem pairLtIN_asymm (a b : Int × Nat) (h : pairLtIN a b = true) :
    pairLtIN b a = false := by
  simp only [pairLtIN, decide_eq_true_eq] at h
  simp only [pairLtIN, decide_eq_false_iff_not]
  omega

theorem pairLtIN_trans (a b c : Int × Nat) (hab : pairLtIN a b = true)
    (hbc : pairLtIN b c = true) : pairLtIN a c = true := by
  simp only [pairLtIN, decide_eq_true_eq] at hab hbc ⊢
  omega

theorem pairLtIS_asymm (a b : Int × String) (h : pairLtIS a b = true) :
    pairLtIS b a = false := by
  simp only [pairLtIS, decide_eq_true_eq] at h
  simp only [pairLtIS, decide_eq_false_iff_not]
  rcases h with h | ⟨h1, h2⟩
  · rintro (h' | ⟨h1', _⟩)
    · omega
    · omega
  · rintro (h' | ⟨_, h2'⟩)
    · omega
    · exact absurd h2' (lt_asymm h2)

theorem pairLtIS_trans (a b c : Int × String) (hab : pairLtIS a b = true)
    (hbc : pairLtIS b c = true) : pairLtIS a c = true := by
  simp only [pairLtIS, decide_eq_true_eq] at hab hbc ⊢
  rcases hab with h | ⟨h1, h2⟩ <;> rcases hbc with h' | ⟨h1', h2'⟩
  · left; omega
  · left; omega
  · left; omega
  · right; exact ⟨h1.trans h1', lt_trans h2 h2'⟩

theorem mem_insertSorted {lt : α → α → Bool} {x a : α} {l : List α}
    (h : a ∈ insertSorted lt x l) : a = x ∨ a ∈ l := by
  induction l with
  | nil =>
    simp only [insertSorted, List.mem_singleton] at h
    exact Or.inl h
  | cons y ys ih =>
    simp only [insertSorted] at h
    split at h
    · rcases List.mem_cons.mp h with h1 | h1
      · exact Or.inl h1
      · exact Or.inr h1
    · split at h
      · rcases List.mem_cons.mp h with h1 | h1
        · exact Or.inr (h1 ▸ List.mem_cons_self y ys)
        · rcases ih h1 with h2 | h2
          · exact Or.inl h2
          · exact Or.inr (List.mem_cons_of_mem y h2)
      · exact Or.inr h

theorem pairwise_insertSorted {lt : α → α → Bool}
    (htrans : ∀ a b c : α, lt a b = true → lt b c = true → lt a c = true)
    (x : α) {l : List α}
    (h : l.Pairwise (fun a b => lt a b = true)) :
    (insertSorted lt x l).Pairwise (fun a b => lt a b = true) := by
  induction l with
  | nil => exact List.pairwise_singleton _ x
  | cons y ys ih =>
    rcases List.pairwise_cons.mp h with ⟨hy, hys⟩
    simp only [insertSorted]
    split
    · refine List.pairwise_cons.mpr ⟨?_, h⟩
      intro b hb
      rcases List.mem_cons.mp hb with rfl | hb
      · assumption
      · exact htrans _ _ _ (by assumption) (hy b hb)
    · split
      · refine List.pairwise_cons.mpr ⟨?_, ih hys⟩
        intro b hb
        rcases mem_insertSorted hb with rfl | hb
        · assumption
        · exact hy b hb
      · exact h

theorem insertSorted_of_forall_lt {lt : α → α → Bool}
    (hasymm : ∀ a b : α, lt a b = true → lt b a = false)
    (x : α) {l : List α} (h : ∀ a ∈ l, lt a x = true) :
    insertSorted lt x l = l ++ [x] := by
  induction l with
  | nil => rfl
  | cons y ys ih =>
    have hy : lt y x = true := h y (List.mem_cons_self y ys)
    simp only [insertSorted]
    rw [if_neg (by simp [hasymm y x hy]), if_pos hy, List.cons_append]
    exact congrArg (y :: ·) (ih fun a ha => h a (List.mem_cons_of_mem y ha))

theorem foldl_insertSorted_of_pairwise {lt : α → α → Bool}
    (hasymm : ∀ a b : α, lt a b = true → lt b a = false)
    (l : List α) :
    ∀ acc : List α, (acc ++ l).Pairwise (fun a b => lt a b = true) →
      List.foldl (fun s x => insertSorted lt x s) acc l = acc ++ l := by
  induction l with
  | nil => intro acc _; simp
  | cons x xs ih =>
    intro acc h
    have hall : ∀ a ∈ acc, lt a x = true := by
      intro a ha
      exact (List.pairwise_append.mp h).2.2 a ha x (List.mem_cons_self x xs)
    have hstep : insertSorted lt x acc = acc ++ [x] :=
      insertSorted_of_forall_lt hasymm x hall
    have hperm : (acc ++ [x]) ++ xs = acc ++ x :: xs := by simp
    have h' : ((acc ++ [x]) ++ xs).Pairwise (fun a b => lt a b = true) := by
      rw [hperm]; exact h
    calc List.foldl (fun s y => insertSorted lt y s) acc (x :: xs)
        = List.foldl (fun s y => insertSorted lt y s) (acc ++ [x]) xs := by
          simp [hstep]
      _ = (acc ++ [x]) ++ xs := ih (acc ++ [x]) h'
      _ = acc ++ x :: xs := hperm

theorem editWF_init : EditWF VersionEdit.init :=
  ⟨List.Pairwise.nil, List.Pairwise.nil, List.Pairwise.nil,
   fun _ => rfl, fun _ => rfl, fun _ => rfl, fun _ => rfl, fun _ => rfl,
   fun _ => rfl, fun _ => rfl, fun _ => rfl, fun _ => rfl, fun _ => rfl⟩

theorem editWF_applyOp {e e' : VersionEdit} {op : Op} (hWF : EditWF e)
    (h : applyOp e op = some e') : EditWF e' := by
  obtain ⟨h1, h2, h3, h4, h5, h6, h7, h8, h9, h10, h11, h12, h13⟩ := hWF
  cases op with
  | setDBId s =>
    injection h with h; subst h
    exact ⟨h1, h2, h3, (fun hc => nomatch hc), h5, h6, h7, h8, h9, h10, h11,
      h12, h13⟩
  | setComparatorName s =>
    injection h with h; subst h
    exact ⟨h1, h2, h3, h4, (fun hc => nomatch hc), h6, h7, h8, h9, h10, h11,
      h12, h13⟩
  | setLogNumber n =>
    injection h with h; subst h
    exact ⟨h1, h2, h3, h4, h5, (fun hc => nomatch hc), h7, h8, h9, h10, h11,
      h12, h13⟩
  | setPrevLogNumber n =>
    injection h with h; subst h
    exact ⟨h1, h2, h3, h4, h5, h6, (fun hc => nomatch hc), h8, h9, h10, h11,
      h12, h13⟩
  | setNextFile n =>
    injection h with h; subst h
    exact ⟨h1, h2, h3, h4, h5, h6, h7, (fun hc => nomatch hc), h9, h10, h11,
      h12, h13⟩
  | setMaxColumnFamily n =>
    injection h with h; subst h
    exact ⟨h1, h2, h3, h4, h5, h6, h7, h8, (fun hc => nomatch hc), h10, h11,
      h12, h13⟩
  | setMinLogNumberToKeep n =>
    injection h with h; subst h
    exact ⟨h1, h2, h3, h4, h5, h6, h7, h8, h9, (fun hc => nomatch hc), h11,
      h12, h13⟩
  | setLastSequence n =>
    injection h with h; subst h
    exact ⟨h1, h2, h3, h4, h5, h6, h7, h8, h9, h10, (fun hc => nomatch hc),
      h12, h13⟩
  | deleteFile level file =>
    injection h with h; subst h
    exact ⟨pairwise_insertSorted pairLtIN_trans _ h1,
      h2, h3, h4, h5, h6, h7, h8, h9, h10, h11, h12, h13⟩
  | addFile level f =>
    simp only [applyOp, VersionEdit.AddFile] at h
    split at h
    · injection h with h; subst h
      simp only [VersionEdit.advanceLastSequence]
      split
      · exact ⟨h1, h2, h3, h4, h5, h6, h7, h8, h9, h10,
          (fun hc => nomatch hc), h12, h13⟩
      · exact ⟨h1, h2, h3, h4, h5, h6, h7, h8, h9, h10, h11, h12, h13⟩
    · exact absurd h (by simp)
  | addTableFile f =>
    simp only [applyOp, VersionEdit.AddTableFile] at h
    split at h
    · injection h with h; subst h
      simp only [VersionEdit.advanceLastSequence]
      split
      · exact ⟨h1, h2, h3, h4, h5, h6, h7, h8, h9, h10,
          (fun hc => nomatch hc), h12, h13⟩
      · exact ⟨h1, h2, h3, h4, h5, h6, h7, h8, h9, h10, h11, h12, h13⟩
    · exact absurd h (by simp)
  | addGuard level g =>
    injection h with h; subst h
    exact ⟨h1, pairwise_insertSorted pairLtIS_trans _ h2,
      h3, h4, h5, h6, h7, h8, h9, h10, h11, h12, h13⟩
  | deleteGuard level g =>
    injection h with h; subst h
    exact ⟨h1, h2, pairwise_insertSorted pairLtIS_trans _ h3,
      h4, h5, h6, h7, h8, h9, h10, h11, h12, h13⟩
  | addCompactCursor level c =>
    injection h with h; subst h
    exact ⟨h1, h2, h3, h4, h5, h6, h7, h8, h9, h10, h11, h12, h13⟩
  | setCompactCursors v =>
    injection h with h; subst h
    exact ⟨h1, h2, h3, h4, h5, h6, h7, h8, h9, h10, h11, h12, h13⟩
  | addBlobFile n c b m v =>
    injection h with h; subst h
    exact ⟨h1, h2, h3, h4, h5, h6, h7, h8, h9, h10, h11, h12, h13⟩
  | addBlobFileGarbage n c b =>
    injection h with h; subst h
    exact ⟨h1, h2, h3, h4, h5, h6, h7, h8, h9, h10, h11, h12, h13⟩
  | addWal n m =>
    simp only [applyOp, VersionEdit.AddWal] at h
    split at h
    · injection h with h; subst h
      exact ⟨h1, h2, h3, h4, h5, h6, h7, h8, h9, h10, h11, h12, h13⟩
    · exact absurd h (by simp)
  | deleteWalsBefore n =>
    simp only [applyOp, VersionEdit.DeleteWalsBefore] at h
    split at h
    · injection h with h; subst h
      exact ⟨h1, h2, h3, h4, h5, h6, h7, h8, h9, h10, h11, h12, h13⟩
    · exact absurd h (by simp)
  | setColumnFamily n =>
    injection h with h; subst h
    exact ⟨h1, h2, h3, h4, h5, h6, h7, h8, h9, h10, h11, h12, h13⟩
  | addColumnFamily name =>
    simp only [applyOp, VersionEdit.AddColumnFamily] at h
    split at h
    · injection h with h; subst h
      exact ⟨h1, h2, h3, h4, h5, h6, h7, h8, h9, h10, h11,
        (fun hc => nomatch hc), h13⟩
    · exact absurd h (by simp)
  | dropColumnFamily =>
    simp only [applyOp, VersionEdit.DropColumnFamily] at h
    split at h
    · injection h with h; subst h
      exact ⟨h1, h2, h3, h4, h5, h6, h7, h8, h9, h10, h11, h12, h13⟩
    · exact absurd h (by simp)
  | markAtomicGroup r =>
    injection h with h; subst h
    exact ⟨h1, h2, h3, h4, h5, h6, h7, h8, h9, h10, h11, h12,
      fun hc => nomatch hc⟩
  | setFullHistoryTsLow s =>
    simp only [applyOp, VersionEdit.SetFullHistoryTsLow] at h
    split at h
    · injection h with h; subst h
      exact ⟨h1, h2, h3, h4, h5, h6, h7, h8, h9, h10, h11, h12, h13⟩
    · exact absurd h (by simp)

theorem editWF_runFrom {e e' : VersionEdit} {ops : List Op}
    (hWF : EditWF e) (h : runFrom e ops = some e') : EditWF e' := by
  induction ops generalizing e with
  | nil =>
    rw [runFrom] at h
    injection h with h; subst h
    exact hWF
  | cons op rest ih =>
    rw [runFrom] at h
    cases happ : applyOp e op with
    | none => rw [happ] at h; exact absurd h (by simp)
    | some e1 =>
      rw [happ] at h
      exact ih (editWF_applyOp hWF happ) h

theorem editWF_runOps {e : VersionEdit} {ops : List Op}
    (h : runOps ops = some e) : EditWF e :=
  editWF_runFrom editWF_init h

theorem foldl_applyRecord_if (s : VersionEdit) (c : Prop) [Decidable c]
    (r : Record) :
    List.foldl applyRecord s (if c then [r] else []) =
      if c then applyRecord s r else s := by
  split <;> rfl

theorem foldl_compactCursors (l : List (Int × InternalKey)) :
    ∀ s : VersionEdit,
      List.foldl applyRecord s (l.map fun p => Record.compactCursor p.1 p.2)
        = { s with compact_cursors_ := s.compact_cursors_ ++ l } := by
  induction l with
  | nil => intro s; simp
  | cons p rest ih =>
    intro s
    simp only [List.map_cons, List.foldl_cons, applyRecord,
      VersionEdit.AddCompactCursor]
    rw [ih]
    simp

theorem foldl_newFilesRec (l : List (Int × FileMetaData)) :
    ∀ s : VersionEdit,
      List.foldl applyRecord s (l.map fun p => Record.newFile p.1 p.2)
        = { s with new_files_ := s.new_files_ ++ l } := by
  induction l with
  | nil => intro s; simp
  | cons p rest ih =>
    intro s
    simp only [List.map_cons, List.foldl_cons, applyRecord]
    rw [ih]
    simp

theorem foldl_newTableFilesRec (l : List FileMetaData) :
    ∀ s : VersionEdit,
      List.foldl applyRecord s (l.map fun f => Record.newTableFile f)
        = { s with new_table_files_ := s.new_table_files_ ++ l } := by
  induction l with
  | nil => intro s; simp
  | cons p rest ih =>
    intro s
    simp only [List.map_cons, List.foldl_cons, applyRecord]
    rw [ih]
    simp

theorem foldl_blobAddsRec (l : List BlobFileAddition) :
    ∀ s : VersionEdit,
      List.foldl applyRecord s (l.map fun b => Record.blobFileAddition b)
        = { s with blob_file_additions_ := s.blob_file_additions_ ++ l } := by
  induction l with
  | nil => intro s; simp
  | cons p rest ih =>
    intro s
    simp only [List.map_cons, List.foldl_cons, applyRecord]
    rw [ih]
    simp

theorem foldl_blobGarbsRec (l : List BlobFileGarbage) :
    ∀ s : VersionEdit,
      List.foldl applyRecord s (l.map fun b => Record.blobFileGarbage b)
        = { s with blob_file_garbages_ := s.blob_file_garbages_ ++ l } := by
  induction l with
  | nil => intro s; simp
  | cons p rest ih =>
    intro s
    simp only [List.map_cons, List.foldl_cons, applyRecord]
    rw [ih]
    simp

theorem foldl_walAddsRec (l : List (Nat × WalMetadata)) :
    ∀ s : VersionEdit,
      List.foldl applyRecord s (l.map fun p => Record.walAddition p.1 p.2)
        = { s with wal_additions_ := s.wal_additions_ ++ l } := by
  induction l with
  | nil => intro s; simp
  | cons p rest ih =>
    intro s
    simp only [List.map_cons, List.foldl_cons, applyRecord]
    rw [ih]
    simp

theorem foldl_deletedFilesRec (l : List (Int × Nat)) :
    ∀ s : VersionEdit,
      List.foldl applyRecord s (l.map fun p => Record.deletedFile p.1 p.2)
        = { s with deleted_files_ :=
            (List.foldl (fun acc p => insertSorted pairLtIN p acc)
              s.deleted_files_ l) } := by
  induction l with
  | nil => intro s; simp
  | cons p rest ih =>
    intro s
    simp only [List.map_cons, List.foldl_cons, applyRecord,
      VersionEdit.DeleteFile]
    rw [ih]

theorem foldl_newGuardsRec (l : List (Int × String)) :
    ∀ s : VersionEdit,
      List.foldl applyRecord s (l.map fun p => Record.newGuard p.1 p.2)
        = { s with new_guard_ :=
            (List.foldl (fun acc p => insertSorted pairLtIS p acc)
              s.new_guard_ l) } := by
  induction l with
  | nil => intro s; simp
  | cons p rest ih =>
    intro s
    simp only [List.map_cons, List.foldl_cons, applyRecord,
      VersionEdit.AddGuard]
    rw [ih]

theorem foldl_deletedGuardsRec (l : List (Int × String)) :
    ∀ s : VersionEdit,
      List.foldl applyRecord s (l.map fun p => Record.deletedGuard p.1 p.2)
        = { s with deleted_guard_ :=
            (List.foldl (fun acc p => insertSorted pairLtIS p acc)
              s.deleted_guard_ l) } := by
  induction l with
  | nil => intro s; simp
  | cons p rest ih =>
    intro s
    simp only [List.map_cons, List.foldl_cons, applyRecord,
      VersionEdit.DeleteGuard]
    rw [ih]

set_option maxRecDepth 4096 in
theorem decode_encode_of_WF {e : VersionEdit} (hWF : EditWF e) :
    VersionEdit.DecodeFrom e.EncodeTo = Except.ok e := by
  obtain ⟨hdf, hng, hdg, hdb, hcmp, hlog, hprev, hnext, hmaxcf, hminlog,
    hlast, hcfn, hrem⟩ := hWF
  have hdf' := foldl_insertSorted_of_pairwise pairLtIN_asymm
    e.deleted_files_ [] (by simpa using hdf)
  have hng' := foldl_insertSorted_of_pairwise pairLtIS_asymm
    e.new_guard_ [] (by simpa using hng)
  have hdg' := foldl_insertSorted_of_pairwise pairLtIS_asymm
    e.deleted_guard_ [] (by simpa using hdg)
  simp only [VersionEdit.DecodeFrom, Except.ok.injEq]
  have h1 : List.foldl applyRecord
      (VersionEdit.init)
      ((if e.has_db_id_ then [Record.dbId e.db_id_] else [])) =
      ({ db_id_ := e.db_id_, has_db_id_ := e.has_db_id_ }) := by
    cases hb : e.has_db_id_
    · simp [VersionEdit.init, hb, hdb hb]
    · simp [VersionEdit.init, hb, List.foldl_cons, List.foldl_nil, applyRecord, VersionEdit.SetDBId]
  have h2 : List.foldl applyRecord
      ({ db_id_ := e.db_id_, has_db_id_ := e.has_db_id_ })
      ((if e.has_comparator_ then [Record.comparator e.comparator_] else [])) =
      ({ db_id_ := e.db_id_, has_db_id_ := e.has_db_id_, comparator_ := e.comparator_, has_comparator_ := e.has_comparator_ }) := by
    cases hb : e.has_comparator_
    · simp [VersionEdit.init, hb, hcmp hb]
    · simp [VersionEdit.init, hb, List.foldl_cons, List.foldl_nil, applyRecord, VersionEdit.SetComparatorName]
  have h3 : List.foldl applyRecord
      ({ db_id_ := e.db_id_, has_db_id_ := e.has_db_id_, comparator_ := e.comparator_, has_comparator_ := e.has_comparator_ })
      ((if e.has_log_number_ then [Record.logNumber e.log_number_] else [])) =
      ({ db_id_ := e.db_id_, has_db_id_ := e.has_db_id_, comparator_ := e.comparator_, has_comparator_ := e.has_comparator_, log_number_ := e.log_number_, has_log_number_ := e.has_log_number_ }) := by
    cases hb : e.has_log_number_
    · simp [VersionEdit.init, hb, hlog hb]
    · simp [VersionEdit.init, hb, List.foldl_cons, List.foldl_nil, applyRecord, VersionEdit.SetLogNumber]
  have h4 : List.foldl applyRecord
      ({ db_id_ := e.db_id_, has_db_id_ := e.has_db_id_, comparator_ := e.comparator_, has_comparator_ := e.has_comparator_, log_number_ := e.log_number_, has_log_number_ := e.has_log_number_ })
      ((if e.has_prev_log_number_ then
    [Record.prevLogNumber e.prev_log_number_] else [])) =
      ({ db_id_ := e.db_id_, has_db_id_ := e.has_db_id_, comparator_ := e.comparator_, has_comparator_ := e.has_comparator_, log_number_ := e.log_number_, has_log_number_ := e.has_log_number_, prev_log_number_ := e.prev_log_number_, has_prev_log_number_ := e.has_prev_log_number_ }) := by
    cases hb : e.has_prev_log_number_
    · simp [VersionEdit.init, hb, hprev hb]
    · simp [VersionEdit.init, hb, List.foldl_cons, List.foldl_nil, applyRecord, VersionEdit.SetPrevLogNumber]
  have h5 : List.foldl applyRecord
      ({ db_id_ := e.db_id_, has_db_id_ := e.has_db_id_, comparator_ := e.comparator_, has_comparator_ := e.has_comparator_, log_number_ := e.log_number_, has_log_number_ := e.has_log_number_, prev_log_number_ := e.prev_log_number_, has_prev_log_number_ := e.has_prev_log_number_ })
      ((if e.has_next_file_number_ then
    [Record.nextFileNumber e.next_file_number_] else [])) =
      ({ db_id_ := e.db_id_, has_db_id_ := e.has_db_id_, comparator_ := e.comparator_, has_comparator_ := e.has_comparator_, log_number_ := e.log_number_, has_log_number_ := e.has_log_number_, prev_log_number_ := e.prev_log_number_, has_prev_log_number_ := e.has_prev_log_number_, next_file_number_ := e.next_file_number_, has_next_file_number_ := e.has_next_file_number_ }) := by
    cases hb : e.has_next_file_number_
    · simp [VersionEdit.init, hb, hnext hb]
    · simp [VersionEdit.init, hb, List.foldl_cons, List.foldl_nil, applyRecord, VersionEdit.SetNextFile]
  have h6 : List.foldl applyRecord
      ({ db_id_ := e.db_id_, has_db_id_ := e.has_db_id_, comparator_ := e.comparator_, has_comparator_ := e.has_comparator_, log_number_ := e.log_number_, has_log_number_ := e.has_log_number_, prev_log_number_ := e.prev_log_number_, has_prev_log_number_ := e.has_prev_log_number_, next_file_number_ := e.next_file_number_, has_next_file_number_ := e.has_next_file_number_ })
      ((if e.has_max_column_family_ then
    [Record.maxColumnFamily e.max_column_family_] else [])) =
      ({ db_id_ := e.db_id_, has_db_id_ := e.has_db_id_, comparator_ := e.comparator_, has_comparator_ := e.has_comparator_, log_number_ := e.log_number_, has_log_number_ := e.has_log_number_, prev_log_number_ := e.prev_log_number_, has_prev_log_number_ := e.has_prev_log_number_, next_file_number_ := e.next_file_number_, has_next_file_number_ := e.has_next_file_number_, max_column_family_ := e.max_column_family_, has_max_column_family_ := e.has_max_column_family_ }) := by
    cases hb : e.has_max_column_family_
    · simp [VersionEdit.init, hb, hmaxcf hb]
    · simp [VersionEdit.init, hb, List.foldl_cons, List.foldl_nil, applyRecord, VersionEdit.SetMaxColumnFamily]
  have h7 : List.foldl applyRecord
      ({ db_id_ := e.db_id_, has_db_id_ := e.has_db_id_, comparator_ := e.comparator_, has_comparator_ := e.has_comparator_, log_number_ := e.log_number_, has_log_number_ := e.has_log_number_, prev_log_number_ := e.prev_log_number_, has_prev_log_number_ := e.has_prev_log_number_, next_file_number_ := e.next_file_number_, has_next_file_number_ := e.has_next_file_number_, max_column_family_ := e.max_column_family_, has_max_column_family_ := e.has_max_column_family_ })
      ((if e.has_min_log_number_to_keep_ then
    [Record.minLogNumberToKeep e.min_log_number_to_keep_] else [])) =
      ({ db_id_ := e.db_id_, has_db_id_ := e.has_db_id_, comparator_ := e.comparator_, has_comparator_ := e.has_comparator_, log_number_ := e.log_number_, has_log_number_ := e.has_log_number_, prev_log_number_ := e.prev_log_number_, has_prev_log_number_ := e.has_prev_log_number_, next_file_number_ := e.next_file_number_, has_next_file_number_ := e.has_next_file_number_, max_column_family_ := e.max_column_family_, has_max_column_family_ := e.has_max_column_family_, min_log_number_to_keep_ := e.min_log_number_to_keep_, has_min_log_number_to_keep_ := e.has_min_log_number_to_keep_ }) := by
    cases hb : e.has_min_log_number_to_keep_
    · simp [VersionEdit.init, hb, hminlog hb]
    · simp [VersionEdit.init, hb, List.foldl_cons, List.foldl_nil, applyRecord, VersionEdit.SetMinLogNumberToKeep]
  have h8 : List.foldl applyRecord
      ({ db_id_ := e.db_id_, has_db_id_ := e.has_db_id_, comparator_ := e.comparator_, has_comparator_ := e.has_comparator_, log_number_ := e.log_number_, has_log_number_ := e.has_log_number_, prev_log_number_ := e.prev_log_number_, has_prev_log_number_ := e.has_prev_log_number_, next_file_number_ := e.next_file_number_, has_next_file_number_ := e.has_next_file_number_, max_column_family_ := e.max_column_family_, has_max_column_family_ := e.has_max_column_family_, min_log_number_to_keep_ := e.min_log_number_to_keep_, has_min_log_number_to_keep_ := e.has_min_log_number_to_keep_ })
      ((if e.has_last_sequence_ then
    [Record.lastSequence e.last_sequence_] else [])) =
      ({ db_id_ := e.db_id_, has_db_id_ := e.has_db_id_, comparator_ := e.comparator_, has_comparator_ := e.has_comparator_, log_number_ := e.log_number_, has_log_number_ := e.has_log_number_, prev_log_number_ := e.prev_log_number_, has_prev_log_number_ := e.has_prev_log_number_, next_file_number_ := e.next_file_number_, has_next_file_number_ := e.has_next_file_number_, max_column_family_ := e.max_column_family_, has_max_column_family_ := e.has_max_column_family_, min_log_number_to_keep_ := e.min_log_number_to_keep_, has_min_log_number_to_keep_ := e.has_min_log_number_to_keep_, last_sequence_ := e.last_sequence_, has_last_sequence_ := e.has_last_sequence_ }) := by
    cases hb : e.has_last_sequence_
    · simp [VersionEdit.init, hb, hlast hb]
    · simp [VersionEdit.init, hb, List.foldl_cons, List.foldl_nil, applyRecord, VersionEdit.SetLastSequence]
  have h9 : List.foldl applyRecord
      ({ db_id_ := e.db_id_, has_db_id_ := e.has_db_id_, comparator_ := e.comparator_, has_comparator_ := e.has_comparator_, log_number_ := e.log_number_, has_log_number_ := e.has_log_number_, prev_log_number_ := e.prev_log_number_, has_prev_log_number_ := e.has_prev_log_number_, next_file_number_ := e.next_file_number_, has_next_file_number_ := e.has_next_file_number_, max_column_family_ := e.max_column_family_, has_max_column_family_ := e.has_max_column_family_, min_log_number_to_keep_ := e.min_log_number_to_keep_, has_min_log_number_to_keep_ := e.has_min_log_number_to_keep_, last_sequence_ := e.last_sequence_, has_last_sequence_ := e.has_last_sequence_ })
      ((e.compact_cursors_.map (fun p => Record.compactCursor p.1 p.2))) =
      ({ db_id_ := e.db_id_, has_db_id_ := e.has_db_id_, comparator_ := e.comparator_, has_comparator_ := e.has_comparator_, log_number_ := e.log_number_, has_log_number_ := e.has_log_number_, prev_log_number_ := e.prev_log_number_, has_prev_log_number_ := e.has_prev_log_number_, next_file_number_ := e.next_file_number_, has_next_file_number_ := e.has_next_file_number_, max_column_family_ := e.max_column_family_, has_max_column_family_ := e.has_max_column_family_, min_log_number_to_keep_ := e.min_log_number_to_keep_, has_min_log_number_to_keep_ := e.has_min_log_number_to_keep_, last_sequence_ := e.last_sequence_, has_last_sequence_ := e.has_last_sequence_, compact_cursors_ := e.compact_cursors_ }) := by
    rw [foldl_compactCursors]; simp
  have h10 : List.foldl applyRecord
      ({ db_id_ := e.db_id_, has_db_id_ := e.has_db_id_, comparator_ := e.comparator_, has_comparator_ := e.has_comparator_, log_number_ := e.log_number_, has_log_number_ := e.has_log_number_, prev_log_number_ := e.prev_log_number_, has_prev_log_number_ := e.has_prev_log_number_, next_file_number_ := e.next_file_number_, has_next_file_number_ := e.has_next_file_number_, max_column_family_ := e.max_column_family_, has_max_column_family_ := e.has_max_column_family_, min_log_number_to_keep_ := e.min_log_number_to_keep_, has_min_log_number_to_keep_ := e.has_min_log_number_to_keep_, last_sequence_ := e.last_sequence_, has_last_sequence_ := e.has_last_sequence_, compact_cursors_ := e.compact_cursors_ })
      ((e.deleted_files_.map (fun p => Record.deletedFile p.1 p.2))) =
      ({ db_id_ := e.db_id_, has_db_id_ := e.has_db_id_, comparator_ := e.comparator_, has_comparator_ := e.has_comparator_, log_number_ := e.log_number_, has_log_number_ := e.has_log_number_, prev_log_number_ := e.prev_log_number_, has_prev_log_number_ := e.has_prev_log_number_, next_file_number_ := e.next_file_number_, has_next_file_number_ := e.has_next_file_number_, max_column_family_ := e.max_column_family_, has_max_column_family_ := e.has_max_column_family_, min_log_number_to_keep_ := e.min_log_number_to_keep_, has_min_log_number_to_keep_ := e.has_min_log_number_to_keep_, last_sequence_ := e.last_sequence_, has_last_sequence_ := e.has_last_sequence_, compact_cursors_ := e.compact_cursors_, deleted_files_ := e.deleted_files_ }) := by
    rw [foldl_deletedFilesRec]; simp [hdf']
  have h11 : List.foldl applyRecord
      ({ db_id_ := e.db_id_, has_db_id_ := e.has_db_id_, comparator_ := e.comparator_, has_comparator_ := e.has_comparator_, log_number_ := e.log_number_, has_log_number_ := e.has_log_number_, prev_log_number_ := e.prev_log_number_, has_prev_log_number_ := e.has_prev_log_number_, next_file_number_ := e.next_file_number_, has_next_file_number_ := e.has_next_file_number_, max_column_family_ := e.max_column_family_, has_max_column_family_ := e.has_max_column_family_, min_log_number_to_keep_ := e.min_log_number_to_keep_, has_min_log_number_to_keep_ := e.has_min_log_number_to_keep_, last_sequence_ := e.last_sequence_, has_last_sequence_ := e.has_last_sequence_, compact_cursors_ := e.compact_cursors_, deleted_files_ := e.deleted_files_ })
      ((e.new_files_.map (fun p => Record.newFile p.1 p.2))) =
      ({ db_id_ := e.db_id_, has_db_id_ := e.has_db_id_, comparator_ := e.comparator_, has_comparator_ := e.has_comparator_, log_number_ := e.log_number_, has_log_number_ := e.has_log_number_, prev_log_number_ := e.prev_log_number_, has_prev_log_number_ := e.has_prev_log_number_, next_file_number_ := e.next_file_number_, has_next_file_number_ := e.has_next_file_number_, max_column_family_ := e.max_column_family_, has_max_column_family_ := e.has_max_column_family_, min_log_number_to_keep_ := e.min_log_number_to_keep_, has_min_log_number_to_keep_ := e.has_min_log_number_to_keep_, last_sequence_ := e.last_sequence_, has_last_sequence_ := e.has_last_sequence_, compact_cursors_ := e.compact_cursors_, deleted_files_ := e.deleted_files_, new_files_ := e.new_files_ }) := by
    rw [foldl_newFilesRec]; simp
  have h12 : List.foldl applyRecord
      ({ db_id_ := e.db_id_, has_db_id_ := e.has_db_id_, comparator_ := e.comparator_, has_comparator_ := e.has_comparator_, log_number_ := e.log_number_, has_log_number_ := e.has_log_number_, prev_log_number_ := e.prev_log_number_, has_prev_log_number_ := e.has_prev_log_number_, next_file_number_ := e.next_file_number_, has_next_file_number_ := e.has_next_file_number_, max_column_family_ := e.max_column_family_, has_max_column_family_ := e.has_max_column_family_, min_log_number_to_keep_ := e.min_log_number_to_keep_, has_min_log_number_to_keep_ := e.has_min_log_number_to_keep_, last_sequence_ := e.last_sequence_, has_last_sequence_ := e.has_last_sequence_, compact_cursors_ := e.compact_cursors_, deleted_files_ := e.deleted_files_, new_files_ := e.new_files_ })
      ((e.new_table_files_.map (fun f => Record.newTableFile f))) =
      ({ db_id_ := e.db_id_, has_db_id_ := e.has_db_id_, comparator_ := e.comparator_, has_comparator_ := e.has_comparator_, log_number_ := e.log_number_, has_log_number_ := e.has_log_number_, prev_log_number_ := e.prev_log_number_, has_prev_log_number_ := e.has_prev_log_number_, next_file_number_ := e.next_file_number_, has_next_file_number_ := e.has_next_file_number_, max_column_family_ := e.max_column_family_, has_max_column_family_ := e.has_max_column_family_, min_log_number_to_keep_ := e.min_log_number_to_keep_, has_min_log_number_to_keep_ := e.has_min_log_number_to_keep_, last_sequence_ := e.last_sequence_, has_last_sequence_ := e.has_last_sequence_, compact_cursors_ := e.compact_cursors_, deleted_files_ := e.deleted_files_, new_files_ := e.new_files_, new_table_files_ := e.new_table_files_ }) := by
    rw [foldl_newTableFilesRec]; simp
  have h13 : List.foldl applyRecord
      ({ db_id_ := e.db_id_, has_db_id_ := e.has_db_id_, comparator_ := e.comparator_, has_comparator_ := e.has_comparator_, log_number_ := e.log_number_, has_log_number_ := e.has_log_number_, prev_log_number_ := e.prev_log_number_, has_prev_log_number_ := e.has_prev_log_number_, next_file_number_ := e.next_file_number_, has_next_file_number_ := e.has_next_file_number_, max_column_family_ := e.max_column_family_, has_max_column_family_ := e.has_max_column_family_, min_log_number_to_keep_ := e.min_log_number_to_keep_, has_min_log_number_to_keep_ := e.has_min_log_number_to_keep_, last_sequence_ := e.last_sequence_, has_last_sequence_ := e.has_last_sequence_, compact_cursors_ := e.compact_cursors_, deleted_files_ := e.deleted_files_, new_files_ := e.new_files_, new_table_files_ := e.new_table_files_ })
      ((e.new_guard_.map (fun p => Record.newGuard p.1 p.2))) =
      ({ db_id_ := e.db_id_, has_db_id_ := e.has_db_id_, comparator_ := e.comparator_, has_comparator_ := e.has_comparator_, log_number_ := e.log_number_, has_log_number_ := e.has_log_number_, prev_log_number_ := e.prev_log_number_, has_prev_log_number_ := e.has_prev_log_number_, next_file_number_ := e.next_file_number_, has_next_file_number_ := e.has_next_file_number_, max_column_family_ := e.max_column_family_, has_max_column_family_ := e.has_max_column_family_, min_log_number_to_keep_ := e.min_log_number_to_keep_, has_min_log_number_to_keep_ := e.has_min_log_number_to_keep_, last_sequence_ := e.last_sequence_, has_last_sequence_ := e.has_last_sequence_, compact_cursors_ := e.compact_cursors_, deleted_files_ := e.deleted_files_, new_files_ := e.new_files_, new_table_files_ := e.new_table_files_, new_guard_ := e.new_guard_ }) := by
    rw [foldl_newGuardsRec]; simp [hng']
  have h14 : List.foldl applyRecord
      ({ db_id_ := e.db_id_, has_db_id_ := e.has_db_id_, comparator_ := e.comparator_, has_comparator_ := e.has_comparator_, log_number_ := e.log_number_, has_log_number_ := e.has_log_number_, prev_log_number_ := e.prev_log_number_, has_prev_log_number_ := e.has_prev_log_number_, next_file_number_ := e.next_file_number_, has_next_file_number_ := e.has_next_file_number_, max_column_family_ := e.max_column_family_, has_max_column_family_ := e.has_max_column_family_, min_log_number_to_keep_ := e.min_log_number_to_keep_, has_min_log_number_to_keep_ := e.has_min_log_number_to_keep_, last_sequence_ := e.last_sequence_, has_last_sequence_ := e.has_last_sequence_, compact_cursors_ := e.compact_cursors_, deleted_files_ := e.deleted_files_, new_files_ := e.new_files_, new_table_files_ := e.new_table_files_, new_guard_ := e.new_guard_ })
      ((e.deleted_guard_.map (fun p => Record.deletedGuard p.1 p.2))) =
      ({ db_id_ := e.db_id_, has_db_id_ := e.has_db_id_, comparator_ := e.comparator_, has_comparator_ := e.has_comparator_, log_number_ := e.log_number_, has_log_number_ := e.has_log_number_, prev_log_number_ := e.prev_log_number_, has_prev_log_number_ := e.has_prev_log_number_, next_file_number_ := e.next_file_number_, has_next_file_number_ := e.has_next_file_number_, max_column_family_ := e.max_column_family_, has_max_column_family_ := e.has_max_column_family_, min_log_number_to_keep_ := e.min_log_number_to_keep_, has_min_log_number_to_keep_ := e.has_min_log_number_to_keep_, last_sequence_ := e.last_sequence_, has_last_sequence_ := e.has_last_sequence_, compact_cursors_ := e.compact_cursors_, deleted_files_ := e.deleted_files_, new_files_ := e.new_files_, new_table_files_ := e.new_table_files_, new_guard_ := e.new_guard_, deleted_guard_ := e.deleted_guard_ }) := by
    rw [foldl_deletedGuardsRec]; simp [hdg']
  have h15 : List.foldl applyRecord
      ({ db_id_ := e.db_id_, has_db_id_ := e.has_db_id_, comparator_ := e.comparator_, has_comparator_ := e.has_comparator_, log_number_ := e.log_number_, has_log_number_ := e.has_log_number_, prev_log_number_ := e.prev_log_number_, has_prev_log_number_ := e.has_prev_log_number_, next_file_number_ := e.next_file_number_, has_next_file_number_ := e.has_next_file_number_, max_column_family_ := e.max_column_family_, has_max_column_family_ := e.has_max_column_family_, min_log_number_to_keep_ := e.min_log_number_to_keep_, has_min_log_number_to_keep_ := e.has_min_log_number_to_keep_, last_sequence_ := e.last_sequence_, has_last_sequence_ := e.has_last_sequence_, compact_cursors_ := e.compact_cursors_, deleted_files_ := e.deleted_files_, new_files_ := e.new_files_, new_table_files_ := e.new_table_files_, new_guard_ := e.new_guard_, deleted_guard_ := e.deleted_guard_ })
      ((e.blob_file_additions_.map (fun b => Record.blobFileAddition b))) =
      ({ db_id_ := e.db_id_, has_db_id_ := e.has_db_id_, comparator_ := e.comparator_, has_comparator_ := e.has_comparator_, log_number_ := e.log_number_, has_log_number_ := e.has_log_number_, prev_log_number_ := e.prev_log_number_, has_prev_log_number_ := e.has_prev_log_number_, next_file_number_ := e.next_file_number_, has_next_file_number_ := e.has_next_file_number_, max_column_family_ := e.max_column_family_, has_max_column_family_ := e.has_max_column_family_, min_log_number_to_keep_ := e.min_log_number_to_keep_, has_min_log_number_to_keep_ := e.has_min_log_number_to_keep_, last_sequence_ := e.last_sequence_, has_last_sequence_ := e.has_last_sequence_, compact_cursors_ := e.compact_cursors_, deleted_files_ := e.deleted_files_, new_files_ := e.new_files_, new_table_files_ := e.new_table_files_, new_guard_ := e.new_guard_, deleted_guard_ := e.deleted_guard_, blob_file_additions_ := e.blob_file_additions_ }) := by
    rw [foldl_blobAddsRec]; simp
  have h16 : List.foldl applyRecord
      ({ db_id_ := e.db_id_, has_db_id_ := e.has_db_id_, comparator_ := e.comparator_, has_comparator_ := e.has_comparator_, log_number_ := e.log_number_, has_log_number_ := e.has_log_number_, prev_log_number_ := e.prev_log_number_, has_prev_log_number_ := e.has_prev_log_number_, next_file_number_ := e.next_file_number_, has_next_file_number_ := e.has_next_file_number_, max_column_family_ := e.max_column_family_, has_max_column_family_ := e.has_max_column_family_, min_log_number_to_keep_ := e.min_log_number_to_keep_, has_min_log_number_to_keep_ := e.has_min_log_number_to_keep_, last_sequence_ := e.last_sequence_, has_last_sequence_ := e.has_last_sequence_, compact_cursors_ := e.compact_cursors_, deleted_files_ := e.deleted_files_, new_files_ := e.new_files_, new_table_files_ := e.new_table_files_, new_guard_ := e.new_guard_, deleted_guard_ := e.deleted_guard_, blob_file_additions_ := e.blob_file_additions_ })
      ((e.blob_file_garbages_.map (fun b => Record.blobFileGarbage b))) =
      ({ db_id_ := e.db_id_, has_db_id_ := e.has_db_id_, comparator_ := e.comparator_, has_comparator_ := e.has_comparator_, log_number_ := e.log_number_, has_log_number_ := e.has_log_number_, prev_log_number_ := e.prev_log_number_, has_prev_log_number_ := e.has_prev_log_number_, next_file_number_ := e.next_file_number_, has_next_file_number_ := e.has_next_file_number_, max_column_family_ := e.max_column_family_, has_max_column_family_ := e.has_max_column_family_, min_log_number_to_keep_ := e.min_log_number_to_keep_, has_min_log_number_to_keep_ := e.has_min_log_number_to_keep_, last_sequence_ := e.last_sequence_, has_last_sequence_ := e.has_last_sequence_, compact_cursors_ := e.compact_cursors_, deleted_files_ := e.deleted_files_, new_files_ := e.new_files_, new_table_files_ := e.new_table_files_, new_guard_ := e.new_guard_, deleted_guard_ := e.deleted_guard_, blob_file_additions_ := e.blob_file_additions_, blob_file_garbages_ := e.blob_file_garbages_ }) := by
    rw [foldl_blobGarbsRec]; simp
  have h17 : List.foldl applyRecord
      ({ db_id_ := e.db_id_, has_db_id_ := e.has_db_id_, comparator_ := e.comparator_, has_comparator_ := e.has_comparator_, log_number_ := e.log_number_, has_log_number_ := e.has_log_number_, prev_log_number_ := e.prev_log_number_, has_prev_log_number_ := e.has_prev_log_number_, next_file_number_ := e.next_file_number_, has_next_file_number_ := e.has_next_file_number_, max_column_family_ := e.max_column_family_, has_max_column_family_ := e.has_max_column_family_, min_log_number_to_keep_ := e.min_log_number_to_keep_, has_min_log_number_to_keep_ := e.has_min_log_number_to_keep_, last_sequence_ := e.last_sequence_, has_last_sequence_ := e.has_last_sequence_, compact_cursors_ := e.compact_cursors_, deleted_files_ := e.deleted_files_, new_files_ := e.new_files_, new_table_files_ := e.new_table_files_, new_guard_ := e.new_guard_, deleted_guard_ := e.deleted_guard_, blob_file_additions_ := e.blob_file_additions_, blob_file_garbages_ := e.blob_file_garbages_ })
      ((e.wal_additions_.map (fun p => Record.walAddition p.1 p.2))) =
      ({ db_id_ := e.db_id_, has_db_id_ := e.has_db_id_, comparator_ := e.comparator_, has_comparator_ := e.has_comparator_, log_number_ := e.log_number_, has_log_number_ := e.has_log_number_, prev_log_number_ := e.prev_log_number_, has_prev_log_number_ := e.has_prev_log_number_, next_file_number_ := e.next_file_number_, has_next_file_number_ := e.has_next_file_number_, max_column_family_ := e.max_column_family_, has_max_column_family_ := e.has_max_column_family_, min_log_number_to_keep_ := e.min_log_number_to_keep_, has_min_log_number_to_keep_ := e.has_min_log_number_to_keep_, last_sequence_ := e.last_sequence_, has_last_sequence_ := e.has_last_sequence_, compact_cursors_ := e.compact_cursors_, deleted_files_ := e.deleted_files_, new_files_ := e.new_files_, new_table_files_ := e.new_table_files_, new_guard_ := e.new_guard_, deleted_guard_ := e.deleted_guard_, blob_file_additions_ := e.blob_file_additions_, blob_file_garbages_ := e.blob_file_garbages_, wal_additions_ := e.wal_additions_ }) := by
    rw [foldl_walAddsRec]; simp
  have h18 : List.foldl applyRecord
      ({ db_id_ := e.db_id_, has_db_id_ := e.has_db_id_, comparator_ := e.comparator_, has_comparator_ := e.has_comparator_, log_number_ := e.log_number_, has_log_number_ := e.has_log_number_, prev_log_number_ := e.prev_log_number_, has_prev_log_number_ := e.has_prev_log_number_, next_file_number_ := e.next_file_number_, has_next_file_number_ := e.has_next_file_number_, max_column_family_ := e.max_column_family_, has_max_column_family_ := e.has_max_column_family_, min_log_number_to_keep_ := e.min_log_number_to_keep_, has_min_log_number_to_keep_ := e.has_min_log_number_to_keep_, last_sequence_ := e.last_sequence_, has_last_sequence_ := e.has_last_sequence_, compact_cursors_ := e.compact_cursors_, deleted_files_ := e.deleted_files_, new_files_ := e.new_files_, new_table_files_ := e.new_table_files_, new_guard_ := e.new_guard_, deleted_guard_ := e.deleted_guard_, blob_file_additions_ := e.blob_file_additions_, blob_file_garbages_ := e.blob_file_garbages_, wal_additions_ := e.wal_additions_ })
      ((walDeletionRecords e.wal_deletion_)) =
      ({ db_id_ := e.db_id_, has_db_id_ := e.has_db_id_, comparator_ := e.comparator_, has_comparator_ := e.has_comparator_, log_number_ := e.log_number_, has_log_number_ := e.has_log_number_, prev_log_number_ := e.prev_log_number_, has_prev_log_number_ := e.has_prev_log_number_, next_file_number_ := e.next_file_number_, has_next_file_number_ := e.has_next_file_number_, max_column_family_ := e.max_column_family_, has_max_column_family_ := e.has_max_column_family_, min_log_number_to_keep_ := e.min_log_number_to_keep_, has_min_log_number_to_keep_ := e.has_min_log_number_to_keep_, last_sequence_ := e.last_sequence_, has_last_sequence_ := e.has_last_sequence_, compact_cursors_ := e.compact_cursors_, deleted_files_ := e.deleted_files_, new_files_ := e.new_files_, new_table_files_ := e.new_table_files_, new_guard_ := e.new_guard_, deleted_guard_ := e.deleted_guard_, blob_file_additions_ := e.blob_file_additions_, blob_file_garbages_ := e.blob_file_garbages_, wal_additions_ := e.wal_additions_, wal_deletion_ := e.wal_deletion_ }) := by
    cases hw : e.wal_deletion_ <;>
      simp [hw, walDeletionRecords, applyRecord, List.foldl_cons,   List.foldl_nil]
  have h19 : List.foldl applyRecord
      ({ db_id_ := e.db_id_, has_db_id_ := e.has_db_id_, comparator_ := e.comparator_, has_comparator_ := e.has_comparator_, log_number_ := e.log_number_, has_log_number_ := e.has_log_number_, prev_log_number_ := e.prev_log_number_, has_prev_log_number_ := e.has_prev_log_number_, next_file_number_ := e.next_file_number_, has_next_file_number_ := e.has_next_file_number_, max_column_family_ := e.max_column_family_, has_max_column_family_ := e.has_max_column_family_, min_log_number_to_keep_ := e.min_log_number_to_keep_, has_min_log_number_to_keep_ := e.has_min_log_number_to_keep_, last_sequence_ := e.last_sequence_, has_last_sequence_ := e.has_last_sequence_, compact_cursors_ := e.compact_cursors_, deleted_files_ := e.deleted_files_, new_files_ := e.new_files_, new_table_files_ := e.new_table_files_, new_guard_ := e.new_guard_, deleted_guard_ := e.deleted_guard_, blob_file_additions_ := e.blob_file_additions_, blob_file_garbages_ := e.blob_file_garbages_, wal_additions_ := e.wal_additions_, wal_deletion_ := e.wal_deletion_ })
      ((if e.column_family_ ≠ 0 then
    [Record.columnFamily e.column_family_] else [])) =
      ({ db_id_ := e.db_id_, has_db_id_ := e.has_db_id_, comparator_ := e.comparator_, has_comparator_ := e.has_comparator_, log_number_ := e.log_number_, has_log_number_ := e.has_log_number_, prev_log_number_ := e.prev_log_number_, has_prev_log_number_ := e.has_prev_log_number_, next_file_number_ := e.next_file_number_, has_next_file_number_ := e.has_next_file_number_, max_column_family_ := e.max_column_family_, has_max_column_family_ := e.has_max_column_family_, min_log_number_to_keep_ := e.min_log_number_to_keep_, has_min_log_number_to_keep_ := e.has_min_log_number_to_keep_, last_sequence_ := e.last_sequence_, has_last_sequence_ := e.has_last_sequence_, compact_cursors_ := e.compact_cursors_, deleted_files_ := e.deleted_files_, new_files_ := e.new_files_, new_table_files_ := e.new_table_files_, new_guard_ := e.new_guard_, deleted_guard_ := e.deleted_guard_, blob_file_additions_ := e.blob_file_additions_, blob_file_garbages_ := e.blob_file_garbages_, wal_additions_ := e.wal_additions_, wal_deletion_ := e.wal_deletion_, column_family_ := e.column_family_ }) := by
    by_cases hc : e.column_family_ = 0
    · rw [if_neg (fun hn => hn hc)]; simp [hc]
    · rw [if_pos hc]
      simp [List.foldl_cons, List.foldl_nil, applyRecord, VersionEdit.SetColumnFamily]
  have h20 : List.foldl applyRecord
      ({ db_id_ := e.db_id_, has_db_id_ := e.has_db_id_, comparator_ := e.comparator_, has_comparator_ := e.has_comparator_, log_number_ := e.log_number_, has_log_number_ := e.has_log_number_, prev_log_number_ := e.prev_log_number_, has_prev_log_number_ := e.has_prev_log_number_, next_file_number_ := e.next_file_number_, has_next_file_number_ := e.has_next_file_number_, max_column_family_ := e.max_column_family_, has_max_column_family_ := e.has_max_column_family_, min_log_number_to_keep_ := e.min_log_number_to_keep_, has_min_log_number_to_keep_ := e.has_min_log_number_to_keep_, last_sequence_ := e.last_sequence_, has_last_sequence_ := e.has_last_sequence_, compact_cursors_ := e.compact_cursors_, deleted_files_ := e.deleted_files_, new_files_ := e.new_files_, new_table_files_ := e.new_table_files_, new_guard_ := e.new_guard_, deleted_guard_ := e.deleted_guard_, blob_file_additions_ := e.blob_file_additions_, blob_file_garbages_ := e.blob_file_garbages_, wal_additions_ := e.wal_additions_, wal_deletion_ := e.wal_deletion_, column_family_ := e.column_family_ })
      ((if e.is_column_family_add_ then
    [Record.columnFamilyAdd e.column_family_name_] else [])) =
      ({ db_id_ := e.db_id_, has_db_id_ := e.has_db_id_, comparator_ := e.comparator_, has_comparator_ := e.has_comparator_, log_number_ := e.log_number_, has_log_number_ := e.has_log_number_, prev_log_number_ := e.prev_log_number_, has_prev_log_number_ := e.has_prev_log_number_, next_file_number_ := e.next_file_number_, has_next_file_number_ := e.has_next_file_number_, max_column_family_ := e.max_column_family_, has_max_column_family_ := e.has_max_column_family_, min_log_number_to_keep_ := e.min_log_number_to_keep_, has_min_log_number_to_keep_ := e.has_min_log_number_to_keep_, last_sequence_ := e.last_sequence_, has_last_sequence_ := e.has_last_sequence_, compact_cursors_ := e.compact_cursors_, deleted_files_ := e.deleted_files_, new_files_ := e.new_files_, new_table_files_ := e.new_table_files_, new_guard_ := e.new_guard_, deleted_guard_ := e.deleted_guard_, blob_file_additions_ := e.blob_file_additions_, blob_file_garbages_ := e.blob_file_garbages_, wal_additions_ := e.wal_additions_, wal_deletion_ := e.wal_deletion_, column_family_ := e.column_family_, is_column_family_add_ := e.is_column_family_add_, column_family_name_ := e.column_family_name_ }) := by
    cases hb : e.is_column_family_add_
    · simp [VersionEdit.init, hb, hcfn hb]
    · simp [VersionEdit.init, hb, List.foldl_cons, List.foldl_nil, applyRecord]
  have h21 : List.foldl applyRecord
      ({ db_id_ := e.db_id_, has_db_id_ := e.has_db_id_, comparator_ := e.comparator_, has_comparator_ := e.has_comparator_, log_number_ := e.log_number_, has_log_number_ := e.has_log_number_, prev_log_number_ := e.prev_log_number_, has_prev_log_number_ := e.has_prev_log_number_, next_file_number_ := e.next_file_number_, has_next_file_number_ := e.has_next_file_number_, max_column_family_ := e.max_column_family_, has_max_column_family_ := e.has_max_column_family_, min_log_number_to_keep_ := e.min_log_number_to_keep_, has_min_log_number_to_keep_ := e.has_min_log_number_to_keep_, last_sequence_ := e.last_sequence_, has_last_sequence_ := e.has_last_sequence_, compact_cursors_ := e.compact_cursors_, deleted_files_ := e.deleted_files_, new_files_ := e.new_files_, new_table_files_ := e.new_table_files_, new_guard_ := e.new_guard_, deleted_guard_ := e.deleted_guard_, blob_file_additions_ := e.blob_file_additions_, blob_file_garbages_ := e.blob_file_garbages_, wal_additions_ := e.wal_additions_, wal_deletion_ := e.wal_deletion_, column_family_ := e.column_family_, is_column_family_add_ := e.is_column_family_add_, column_family_name_ := e.column_family_name_ })
      ((if e.is_column_family_drop_ then [Record.columnFamilyDrop] else [])) =
      ({ db_id_ := e.db_id_, has_db_id_ := e.has_db_id_, comparator_ := e.comparator_, has_comparator_ := e.has_comparator_, log_number_ := e.log_number_, has_log_number_ := e.has_log_number_, prev_log_number_ := e.prev_log_number_, has_prev_log_number_ := e.has_prev_log_number_, next_file_number_ := e.next_file_number_, has_next_file_number_ := e.has_next_file_number_, max_column_family_ := e.max_column_family_, has_max_column_family_ := e.has_max_column_family_, min_log_number_to_keep_ := e.min_log_number_to_keep_, has_min_log_number_to_keep_ := e.has_min_log_number_to_keep_, last_sequence_ := e.last_sequence_, has_last_sequence_ := e.has_last_sequence_, compact_cursors_ := e.compact_cursors_, deleted_files_ := e.deleted_files_, new_files_ := e.new_files_, new_table_files_ := e.new_table_files_, new_guard_ := e.new_guard_, deleted_guard_ := e.deleted_guard_, blob_file_additions_ := e.blob_file_additions_, blob_file_garbages_ := e.blob_file_garbages_, wal_additions_ := e.wal_additions_, wal_deletion_ := e.wal_deletion_, column_family_ := e.column_family_, is_column_family_add_ := e.is_column_family_add_, column_family_name_ := e.column_family_name_, is_column_family_drop_ := e.is_column_family_drop_ }) := by
    cases hb : e.is_column_family_drop_
    · simp [VersionEdit.init, hb]
    · simp [VersionEdit.init, hb, List.foldl_cons, List.foldl_nil, applyRecord]
  have h22 : List.foldl applyRecord
      ({ db_id_ := e.db_id_, has_db_id_ := e.has_db_id_, comparator_ := e.comparator_, has_comparator_ := e.has_comparator_, log_number_ := e.log_number_, has_log_number_ := e.has_log_number_, prev_log_number_ := e.prev_log_number_, has_prev_log_number_ := e.has_prev_log_number_, next_file_number_ := e.next_file_number_, has_next_file_number_ := e.has_next_file_number_, max_column_family_ := e.max_column_family_, has_max_column_family_ := e.has_max_column_family_, min_log_number_to_keep_ := e.min_log_number_to_keep_, has_min_log_number_to_keep_ := e.has_min_log_number_to_keep_, last_sequence_ := e.last_sequence_, has_last_sequence_ := e.has_last_sequence_, compact_cursors_ := e.compact_cursors_, deleted_files_ := e.deleted_files_, new_files_ := e.new_files_, new_table_files_ := e.new_table_files_, new_guard_ := e.new_guard_, deleted_guard_ := e.deleted_guard_, blob_file_additions_ := e.blob_file_additions_, blob_file_garbages_ := e.blob_file_garbages_, wal_additions_ := e.wal_additions_, wal_deletion_ := e.wal_deletion_, column_family_ := e.column_family_, is_column_family_add_ := e.is_column_family_add_, column_family_name_ := e.column_family_name_, is_column_family_drop_ := e.is_column_family_drop_ })
      ((if e.is_in_atomic_group_ then
    [Record.inAtomicGroup e.remaining_entries_] else [])) =
      ({ db_id_ := e.db_id_, has_db_id_ := e.has_db_id_, comparator_ := e.comparator_, has_comparator_ := e.has_comparator_, log_number_ := e.log_number_, has_log_number_ := e.has_log_number_, prev_log_number_ := e.prev_log_number_, has_prev_log_number_ := e.has_prev_log_number_, next_file_number_ := e.next_file_number_, has_next_file_number_ := e.has_next_file_number_, max_column_family_ := e.max_column_family_, has_max_column_family_ := e.has_max_column_family_, min_log_number_to_keep_ := e.min_log_number_to_keep_, has_min_log_number_to_keep_ := e.has_min_log_number_to_keep_, last_sequence_ := e.last_sequence_, has_last_sequence_ := e.has_last_sequence_, compact_cursors_ := e.compact_cursors_, deleted_files_ := e.deleted_files_, new_files_ := e.new_files_, new_table_files_ := e.new_table_files_, new_guard_ := e.new_guard_, deleted_guard_ := e.deleted_guard_, blob_file_additions_ := e.blob_file_additions_, blob_file_garbages_ := e.blob_file_garbages_, wal_additions_ := e.wal_additions_, wal_deletion_ := e.wal_deletion_, column_family_ := e.column_family_, is_column_family_add_ := e.is_column_family_add_, column_family_name_ := e.column_family_name_, is_column_family_drop_ := e.is_column_family_drop_, is_in_atomic_group_ := e.is_in_atomic_group_, remaining_entries_ := e.remaining_entries_ }) := by
    cases hb : e.is_in_atomic_group_
    · simp [VersionEdit.init, hb, hrem hb]
    · simp [VersionEdit.init, hb, List.foldl_cons, List.foldl_nil, applyRecord, VersionEdit.MarkAtomicGroup]
  have h23 : List.foldl applyRecord
      ({ db_id_ := e.db_id_, has_db_id_ := e.has_db_id_, comparator_ := e.comparator_, has_comparator_ := e.has_comparator_, log_number_ := e.log_number_, has_log_number_ := e.has_log_number_, prev_log_number_ := e.prev_log_number_, has_prev_log_number_ := e.has_prev_log_number_, next_file_number_ := e.next_file_number_, has_next_file_number_ := e.has_next_file_number_, max_column_family_ := e.max_column_family_, has_max_column_family_ := e.has_max_column_family_, min_log_number_to_keep_ := e.min_log_number_to_keep_, has_min_log_number_to_keep_ := e.has_min_log_number_to_keep_, last_sequence_ := e.last_sequence_, has_last_sequence_ := e.has_last_sequence_, compact_cursors_ := e.compact_cursors_, deleted_files_ := e.deleted_files_, new_files_ := e.new_files_, new_table_files_ := e.new_table_files_, new_guard_ := e.new_guard_, deleted_guard_ := e.deleted_guard_, blob_file_additions_ := e.blob_file_additions_, blob_file_garbages_ := e.blob_file_garbages_, wal_additions_ := e.wal_additions_, wal_deletion_ := e.wal_deletion_, column_family_ := e.column_family_, is_column_family_add_ := e.is_column_family_add_, column_family_name_ := e.column_family_name_, is_column_family_drop_ := e.is_column_family_drop_, is_in_atomic_group_ := e.is_in_atomic_group_, remaining_entries_ := e.remaining_entries_ })
      ((if e.full_history_ts_low_ ≠ "" then
    [Record.fullHistoryTsLow e.full_history_ts_low_] else [])) =
      ({ db_id_ := e.db_id_, has_db_id_ := e.has_db_id_, comparator_ := e.comparator_, has_comparator_ := e.has_comparator_, log_number_ := e.log_number_, has_log_number_ := e.has_log_number_, prev_log_number_ := e.prev_log_number_, has_prev_log_number_ := e.has_prev_log_number_, next_file_number_ := e.next_file_number_, has_next_file_number_ := e.has_next_file_number_, max_column_family_ := e.max_column_family_, has_max_column_family_ := e.has_max_column_family_, min_log_number_to_keep_ := e.min_log_number_to_keep_, has_min_log_number_to_keep_ := e.has_min_log_number_to_keep_, last_sequence_ := e.last_sequence_, has_last_sequence_ := e.has_last_sequence_, compact_cursors_ := e.compact_cursors_, deleted_files_ := e.deleted_files_, new_files_ := e.new_files_, new_table_files_ := e.new_table_files_, new_guard_ := e.new_guard_, deleted_guard_ := e.deleted_guard_, blob_file_additions_ := e.blob_file_additions_, blob_file_garbages_ := e.blob_file_garbages_, wal_additions_ := e.wal_additions_, wal_deletion_ := e.wal_deletion_, column_family_ := e.column_family_, is_column_family_add_ := e.is_column_family_add_, column_family_name_ := e.column_family_name_, is_column_family_drop_ := e.is_column_family_drop_, is_in_atomic_group_ := e.is_in_atomic_group_, remaining_entries_ := e.remaining_entries_, full_history_ts_low_ := e.full_history_ts_low_ }) := by
    by_cases hc : e.full_history_ts_low_ = ""
    · rw [if_neg (fun hn => hn hc)]; simp [hc]
    · rw [if_pos hc]
      simp [List.foldl_cons, List.foldl_nil, applyRecord]
  simp only [VersionEdit.EncodeTo, List.foldl_append]
  rw [h1, h2, h3, h4, h5, h6, h7, h8, h9, h10, h11, h12, h13, h14, h15, h16, h17, h18, h19, h20, h21, h22, h23]

/-- Claim C6: the top-level tag space is partitioned with every mandatory
tag strictly below `kTagSafeIgnoreMask = 8192`, every forward-compatible
ignorable tag at or above 8192, and within a v4 new-file record the
non-ignorable custom tag `kPathId` at or above
`kCustomTagNonSafeIgnoreMask = 64` while every safely-skippable known
custom tag is below 64. -/
theorem C6_tag_partition :
    (([Tag.kComparator, Tag.kLogNumber, Tag.kNextFileNumber,
      Tag.kLastSequence, Tag.kCompactCursor, Tag.kDeletedFile,
      Tag.kNewFile, Tag.kPrevLogNumber, Tag.kMinLogNumberToKeep,
      Tag.kNewFile2, Tag.kNewFile3, Tag.kNewFile4, Tag.kColumnFamily,
      Tag.kColumnFamilyAdd, Tag.kColumnFamilyDrop, Tag.kMaxColumnFamily,
      Tag.kInAtomicGroup, Tag.kBlobFileAddition,
      Tag.kBlobFileGarbage].all
        (fun t => decide (t.val < Tag.kTagSafeIgnoreMask.val))) = true) ∧
    (([Tag.kDbId, Tag.kBlobFileAddition_DEPRECATED,
      Tag.kBlobFileGarbage_DEPRECATED, Tag.kWalAddition, Tag.kWalDeletion,
      Tag.kFullHistoryTsLow, Tag.kWalAddition2, Tag.kWalDeletion2].all
        (fun t => decide (Tag.kTagSafeIgnoreMask.val ≤ t.val))) = true) ∧
    Tag.kTagSafeIgnoreMask.val = 8192 ∧
    NewFileCustomTag.kCustomTagNonSafeIgnoreMask.val = 64 ∧
    NewFileCustomTag.kCustomTagNonSafeIgnoreMask.val ≤
      NewFileCustomTag.kPathId.val ∧
    (([NewFileCustomTag.kTerminate, NewFileCustomTag.kNeedCompaction,
      NewFileCustomTag.kMinLogNumberToKeepHack,
      NewFileCustomTag.kOldestBlobFileNumber,
      NewFileCustomTag.kOldestAncesterTime,
      NewFileCustomTag.kFileCreationTime, NewFileCustomTag.kFileChecksum,
      NewFileCustomTag.kFileChecksumFuncName,
      NewFileCustomTag.kTemperature, NewFileCustomTag.kMinTimestamp,
      NewFileCustomTag.kMaxTimestamp, NewFileCustomTag.kUniqueId].all
        (fun t => decide (t.val <
          NewFileCustomTag.kCustomTagNonSafeIgnoreMask.val))) = true) := by
  decide

/-- Claim C3, counterexample: the default `FileDescriptor` constructor
(and the seqno-less constructors it delegates to) produce
`smallest_seqno = kMaxSequenceNumber > 0 = largest_seqno`, violating the
claimed invariant without any assertion, and the seqno-taking constructor
accepts inverted bounds silently. -/
theorem C3_counterexample :
    ¬(FileDescriptor.mkDefault.smallest_seqno ≤
        FileDescriptor.mkDefault.largest_seqno) ∧
    (FileDescriptor.ofSizeSeq 1 0 0 5 3).smallest_seqno = 5 ∧
    (FileDescriptor.ofSizeSeq 1 0 0 5 3).largest_seqno = 3 ∧
    ¬((FileDescriptor.ofSizeSeq 1 0 0 5 3).smallest_seqno ≤
        (FileDescriptor.ofSizeSeq 1 0 0 5 3).largest_seqno) := by
  decide

/-- Claim C3, amended: the `FileDescriptor` constructors never check or
clamp the seqno pair (explicit bounds are stored unchanged); the fail-fast
assertion lives in `VersionEdit::AddFile`/`AddTableFile`, which succeed
exactly when `smallest_seqno ≤ largest_seqno` holds for the added file. -/
theorem C3_amended :
    (∀ n p fs s l, (FileDescriptor.ofSizeSeq n p fs s l).smallest_seqno = s ∧
      (FileDescriptor.ofSizeSeq n p fs s l).largest_seqno = l) ∧
    (∀ n p fs sfs s l,
      (FileDescriptor.ofSizesSeq n p fs sfs s l).smallest_seqno = s ∧
      (FileDescriptor.ofSizesSeq n p fs sfs s l).largest_seqno = l) ∧
    (∀ e level f, (VersionEdit.AddFile e level f).isSome = true ↔
      f.fd.smallest_seqno ≤ f.fd.largest_seqno) ∧
    (∀ e f, (VersionEdit.AddTableFile e f).isSome = true ↔
      f.fd.smallest_seqno ≤ f.fd.largest_seqno) := by
  refine ⟨fun n p fs s l => ⟨rfl, rfl⟩, fun n p fs sfs s l => ⟨rfl, rfl⟩,
    ?_, ?_⟩
  · intro e level f
    rw [VersionEdit.AddFile]
    split <;> simp_all
  · intro e f
    rw [VersionEdit.AddTableFile]
    split <;> simp_all

/-- Claim C9, counterexample: `AddCompactCursor` appends unconditionally,
so after `AddCompactCursor(0, empty-key)` the cursor list contains an
invalid cursor, contradicting the claim that only valid cursors are
retained by these calls. -/
theorem C9_counterexample :
    ((VersionEdit.init.AddCompactCursor 0 ("")).GetCompactCursors.all
      (fun p => p.2.Valid)) = false := by
  decide

/-- Claim C9, amended: `SetCompactCursors(v)` replaces the cursor list
with exactly the pairs `(i, v[i])` at the indices where `v[i]` is valid
(so every cursor in the list it produces is valid), while
`AddCompactCursor` appends its pair unconditionally, retaining invalid
cursors as well. -/
theorem C9_amended :
    (∀ (e : VersionEdit) (v : List InternalKey),
      (e.SetCompactCursors v).GetCompactCursors =
        (((List.range v.length).zip v).filter
          (fun p => p.2.Valid)).map (fun p => ((p.1 : Int), p.2))) ∧
    (∀ (e : VersionEdit) (v : List InternalKey)
        (p : Int × InternalKey),
      p ∈ (e.SetCompactCursors v).GetCompactCursors →
        p.2.Valid = true) ∧
    (∀ (e : VersionEdit) (level : Int) (c : InternalKey),
      (e.AddCompactCursor level c).GetCompactCursors =
        e.GetCompactCursors ++ [(level, c)]) := by
  refine ⟨?_, ?_, fun e level c => rfl⟩
  · intro e v
    simp [VersionEdit.SetCompactCursors, VersionEdit.GetCompactCursors,
      List.enum_eq_zip_range]
  · intro e v p hp
    simp only [VersionEdit.SetCompactCursors,
      VersionEdit.GetCompactCursors, List.mem_map, List.mem_filter] at hp
    obtain ⟨q, ⟨_, hq⟩, rfl⟩ := hp
    exact hq

/-- Witness for the membership conjunct of `C9_amended` at a concrete
input. -/
theorem C9_witness :
    ((0 : Int), ("a" : InternalKey)) ∈
      (VersionEdit.init.SetCompactCursors ["a"]).GetCompactCursors ∧
    InternalKey.Valid ("a") = true :=
  ⟨by decide,
   C9_amended.2.1 VersionEdit.init ["a"] ((0 : Int), ("a" : InternalKey))
     (by decide)⟩

/-- Claim C10: `NumEntries()` counts only new files, deleted files, blob
additions, blob garbages, WAL additions and the WAL-deletion watermark;
`AddTableFile`, `AddGuard`, `DeleteGuard` and `AddCompactCursor` leave it
unchanged, so an edit can carry table files, guards and cursors while
`NumEntries() = 0`, invisible to the emptiness assertion of
`AddColumnFamily` and to `IsWalManipulation()`. -/
theorem C10_numEntries :
    (∀ e f e', VersionEdit.AddTableFile e f = some e' →
      e'.NumEntries = e.NumEntries) ∧
    (∀ e level g, (VersionEdit.AddGuard e level g).NumEntries =
      e.NumEntries) ∧
    (∀ e level g, (VersionEdit.DeleteGuard e level g).NumEntries =
      e.NumEntries) ∧
    (∀ e level c, (VersionEdit.AddCompactCursor e level c).NumEntries =
      e.NumEntries) ∧
    ((runOps [Op.addTableFile tableFileW, Op.addGuard 1 ("g"),
        Op.addCompactCursor 0 ("k")]).map
      (fun e => decide (e.NumEntries = 0) &&
        decide (e.new_table_files_ ≠ []) && decide (e.new_guard_ ≠ []) &&
        decide (e.compact_cursors_ ≠ []) &&
        (e.AddColumnFamily ("cf")).isSome && !e.IsWalManipulation))
      = some true := by
  refine ⟨?_, fun e level g => rfl, fun e level g => rfl,
    fun e level c => rfl, by decide⟩
  intro e f e' h
  rw [VersionEdit.AddTableFile] at h
  split at h
  · injection h with h
    subst h
    rw [VersionEdit.advanceLastSequence]
    split <;> rfl
  · exact absurd h (by simp)

/-- Witness for the `AddTableFile` conjunct of `C10_numEntries` at a
concrete input. -/
theorem C10_witness :
    VersionEdit.init.AddTableFile tableFileW = some editTW ∧
    editTW.NumEntries = VersionEdit.init.NumEntries :=
  ⟨by decide, C10_numEntries.1 VersionEdit.init tableFileW editTW
    (by decide)⟩

/-- Claim C4, counterexample: `AddTableFile` is a file mutation invisible
to `NumEntries()`, so `AddColumnFamily` succeeds after it; and nothing
stops counted mutations after a column-family marker, so a CF-marked edit
can reach `NumEntries() = 1`. -/
theorem C4_counterexample :
    (runOps [Op.addTableFile tableFileW,
      Op.addColumnFamily ("cf")]).isSome = true ∧
    ((runOps [Op.addColumnFamily ("cf"), Op.deleteFile 0 7]).map
      (fun e => e.IsColumnFamilyManipulation && decide (e.NumEntries = 1)))
      = some true := by
  decide

/-- Claim C4, amended: `AddColumnFamily`/`DropColumnFamily` assert mutual
exclusion with each other and that `NumEntries() = 0` at call time; they
succeed exactly when no CF marker is present and `NumEntries()` is zero,
and after either succeeds, both calls fail on the resulting edit.
Mutations not counted by `NumEntries()` (table files, guards, cursors)
and counted mutations made after the marker are not prevented. -/
theorem C4_amended :
    (∀ e name, (VersionEdit.AddColumnFamily e name).isSome = true ↔
      (e.is_column_family_drop_ = false ∧ e.is_column_family_add_ = false ∧
        e.NumEntries = 0)) ∧
    (∀ e, (VersionEdit.DropColumnFamily e).isSome = true ↔
      (e.is_column_family_drop_ = false ∧ e.is_column_family_add_ = false ∧
        e.NumEntries = 0)) ∧
    (∀ e name e', VersionEdit.AddColumnFamily e name = some e' →
      e'.DropColumnFamily = none ∧
        ∀ m, e'.AddColumnFamily m = none) ∧
    (∀ e e', VersionEdit.DropColumnFamily e = some e' →
      e'.DropColumnFamily = none ∧
        ∀ m, e'.AddColumnFamily m = none) := by
  refine ⟨?_, ?_, ?_, ?_⟩
  · intro e name
    rw [VersionEdit.AddColumnFamily]
    split <;> simp_all
  · intro e
    rw [VersionEdit.DropColumnFamily]
    split <;> simp_all
  · intro e name e' h
    rw [VersionEdit.AddColumnFamily] at h
    split at h
    · injection h with h
      subst h
      constructor
      · rw [VersionEdit.DropColumnFamily]
        split <;> simp_all
      · intro m
        rw [VersionEdit.AddColumnFamily]
        split <;> simp_all
    · exact absurd h (by simp)
  · intro e e' h
    rw [VersionEdit.DropColumnFamily] at h
    split at h
    · injection h with h
      subst h
      constructor
      · rw [VersionEdit.DropColumnFamily]
        split <;> simp_all
      · intro m
        rw [VersionEdit.AddColumnFamily]
        split <;> simp_all
    · exact absurd h (by simp)

/-- Witness for the marker-exclusion conjunct of `C4_amended` at a
concrete input. -/
theorem C4_witness :
    VersionEdit.init.AddColumnFamily ("cf") = some editCFW ∧
    editCFW.DropColumnFamily = none :=
  ⟨by decide,
   (C4_amended.2.2.1 VersionEdit.init ("cf") editCFW (by decide)).1⟩

/-- Claim C5, counterexample: the sequence
`AddWal(1); AddWal(2); DeleteWalsBefore(5)` passes every assertion (at the
deletion, `NumEntries() = 2 ≠ 1` and the watermark is empty, so
`(NumEntries() == 1) == !IsEmpty()` holds), producing an edit containing
both a WAL addition and a WAL deletion. -/
theorem C5_counterexample :
    ((runOps [Op.addWal 1 {}, Op.addWal 2 {}, Op.deleteWalsBefore 5]).map
      (fun e => e.IsWalAddition && e.IsWalDeletion)) = some true := by
  decide

/-- Claim C5, amended: `AddWal` asserts whenever the edit already contains
a WAL deletion, so a deletion can never be followed by an addition; in the
other order `DeleteWalsBefore` asserts only when the edit holds exactly
one counted entry and no deletion (e.g. immediately after a single
`AddWal`); call sequences leaving two or more counted entries slip past
the assertion. -/
theorem C5_amended :
    (∀ e n m, e.wal_deletion_.isSome = true →
      VersionEdit.AddWal e n m = none) ∧
    (∀ e n e' k m, VersionEdit.DeleteWalsBefore e n = some e' →
      VersionEdit.AddWal e' k m = none) ∧
    (∀ e n, e.wal_deletion_ = none → e.NumEntries = 1 →
      VersionEdit.DeleteWalsBefore e n = none) := by
  have hadd : ∀ e n m, e.wal_deletion_.isSome = true →
      VersionEdit.AddWal e n m = none := by
    intro e n m h
    rw [VersionEdit.AddWal]
    rw [if_neg]
    simp only [VersionEdit.NumEntries, h, if_true]
    omega
  refine ⟨hadd, ?_, ?_⟩
  · intro e n e' k m h
    rw [VersionEdit.DeleteWalsBefore] at h
    split at h
    · injection h with h
      subst h
      exact hadd _ k m rfl
    · exact absurd h (by simp)
  · intro e n h1 h2
    rw [VersionEdit.DeleteWalsBefore]
    rw [if_neg]
    simp [h1, h2]

/-- Witness for the deletion-then-addition conjunct of `C5_amended` at a
concrete input. -/
theorem C5_witness :
    VersionEdit.init.DeleteWalsBefore 5 = some editDW ∧
    editDW.AddWal 9 {} = none :=
  ⟨by decide, C5_amended.2.1 VersionEdit.init 5 editDW 9 {} (by decide)⟩

theorem advanceLastSequence_spec (e : VersionEdit) (ls : Nat) :
    (VersionEdit.advanceLastSequence e ls).has_last_sequence_ = true ∧
    (VersionEdit.advanceLastSequence e ls).last_sequence_ =
      (if e.has_last_sequence_ = true then max e.last_sequence_ ls
       else ls) := by
  rw [VersionEdit.advanceLastSequence, VersionEdit.HasLastSequence,
    VersionEdit.GetLastSequence]
  by_cases hb : e.has_last_sequence_ = true
  · by_cases hgt : ls > e.last_sequence_
    · rw [if_pos (Or.inr hgt), if_pos hb]
      exact ⟨rfl, (Nat.max_eq_right (Nat.le_of_lt hgt)).symm⟩
    · rw [if_neg, if_pos hb]
      · exact ⟨hb, (Nat.max_eq_left (Nat.le_of_not_lt hgt)).symm⟩
      · rintro (hc | hc)
        · rw [hb] at hc
          exact nomatch hc
        · exact hgt hc
  · have hb' : e.has_last_sequence_ = false := by
      cases hval : e.has_last_sequence_
      · rfl
      · exact absurd hval hb
    rw [if_pos (Or.inl hb'), if_neg hb]
    simp [VersionEdit.SetLastSequence]

theorem addFile_lastSeq {e e' : VersionEdit} {level : Int}
    {f : FileMetaData} (h : VersionEdit.AddFile e level f = some e') :
    e'.has_last_sequence_ = true ∧
    e'.last_sequence_ =
      (if e.has_last_sequence_ = true
       then max e.last_sequence_ f.fd.largest_seqno
       else f.fd.largest_seqno) := by
  rw [VersionEdit.AddFile] at h
  split at h
  · injection h with h
    subst h
    exact advanceLastSequence_spec _ _
  · exact absurd h (by simp)

theorem addTableFile_lastSeq {e e' : VersionEdit}
    {f : FileMetaData} (h : VersionEdit.AddTableFile e f = some e') :
    e'.has_last_sequence_ = true ∧
    e'.last_sequence_ =
      (if e.has_last_sequence_ = true
       then max e.last_sequence_ f.fd.largest_seqno
       else f.fd.largest_seqno) := by
  rw [VersionEdit.AddTableFile] at h
  split at h
  · injection h with h
    subst h
    exact advanceLastSequence_spec _ _
  · exact absurd h (by simp)

theorem applyOp_add_lastSeq {e e1 : VersionEdit} {op : Op}
    (hop : op.isAddCall = true) (happ : applyOp e op = some e1) :
    e1.has_last_sequence_ = true ∧
    e1.last_sequence_ =
      (if e.has_last_sequence_ = true
       then max e.last_sequence_ op.largestSeqArg
       else op.largestSeqArg) := by
  cases op with
  | addFile level f =>
    simpa only [Op.largestSeqArg] using addFile_lastSeq happ
  | addTableFile f =>
    simpa only [Op.largestSeqArg] using addTableFile_lastSeq happ
  | setDBId s => exact absurd hop (by simp [Op.isAddCall])
  | setComparatorName s => exact absurd hop (by simp [Op.isAddCall])
  | setLogNumber n => exact absurd hop (by simp [Op.isAddCall])
  | setPrevLogNumber n => exact absurd hop (by simp [Op.isAddCall])
  | setNextFile n => exact absurd hop (by simp [Op.isAddCall])
  | setMaxColumnFamily n => exact absurd hop (by simp [Op.isAddCall])
  | setMinLogNumberToKeep n => exact absurd hop (by simp [Op.isAddCall])
  | setLastSequence n => exact absurd hop (by simp [Op.isAddCall])
  | deleteFile level file => exact absurd hop (by simp [Op.isAddCall])
  | addGuard level g => exact absurd hop (by simp [Op.isAddCall])
  | deleteGuard level g => exact absurd hop (by simp [Op.isAddCall])
  | addCompactCursor level c => exact absurd hop (by simp [Op.isAddCall])
  | setCompactCursors v => exact absurd hop (by simp [Op.isAddCall])
  | addBlobFile n c b m v => exact absurd hop (by simp [Op.isAddCall])
  | addBlobFileGarbage n c b => exact absurd hop (by simp [Op.isAddCall])
  | addWal n m => exact absurd hop (by simp [Op.isAddCall])
  | deleteWalsBefore n => exact absurd hop (by simp [Op.isAddCall])
  | setColumnFamily n => exact absurd hop (by simp [Op.isAddCall])
  | addColumnFamily name => exact absurd hop (by simp [Op.isAddCall])
  | dropColumnFamily => exact absurd hop (by simp [Op.isAddCall])
  | markAtomicGroup r => exact absurd hop (by simp [Op.isAddCall])
  | setFullHistoryTsLow s => exact absurd hop (by simp [Op.isAddCall])

theorem runFrom_adds_lastSeq {ops : List Op} :
    ∀ {e e' : VersionEdit}, e.has_last_sequence_ = true →
      (∀ op ∈ ops, op.isAddCall = true) →
      runFrom e ops = some e' →
      e'.has_last_sequence_ = true ∧
      e'.last_sequence_ =
        (ops.map Op.largestSeqArg).foldl max e.last_sequence_ := by
  induction ops with
  | nil =>
    intro e e' hb _ h
    rw [runFrom] at h
    injection h with h
    subst h
    exact ⟨hb, rfl⟩
  | cons op rest ih =>
    intro e e' hb hcall h
    rw [runFrom] at h
    cases happ : applyOp e op with
    | none => rw [happ] at h; exact absurd h (by simp)
    | some e1 =>
      rw [happ] at h
      have hop := hcall op (List.mem_cons_self op rest)
      have hrest := fun o ho => hcall o (List.mem_cons_of_mem op ho)
      have hstep := applyOp_add_lastSeq hop happ
      have hstep2 : e1.last_sequence_ =
          max e.last_sequence_ op.largestSeqArg := by
        rw [hstep.2, if_pos hb]
      have hih := ih hstep.1 hrest h
      refine ⟨hih.1, ?_⟩
      rw [hih.2, hstep2, List.map_cons, List.foldl_cons]

/-- Claim C2: starting from a fresh edit and never calling
`SetLastSequence` directly, a non-empty sequence of
`AddFile`/`AddTableFile` calls with largest-seqno arguments `s1..sN`
leaves `HasLastSequence()` true and `GetLastSequence() = max(s1..sN)`;
each individual call advances the last sequence exactly when its largest
seqno exceeds the current value (or none is set yet). -/
theorem C2_lastSequence :
    (∀ (ops : List Op) (e : VersionEdit),
      (∀ op ∈ ops, op.isAddCall = true) → ops ≠ [] →
      runOps ops = some e →
      e.HasLastSequence = true ∧
      e.GetLastSequence = (ops.map Op.largestSeqArg).foldl max 0) ∧
    (∀ e level f e', VersionEdit.AddFile e level f = some e' →
      e'.HasLastSequence = true ∧
      e'.GetLastSequence =
        (if e.HasLastSequence = true ∧
            f.fd.largest_seqno ≤ e.GetLastSequence
         then e.GetLastSequence else f.fd.largest_seqno)) ∧
    (∀ e f e', VersionEdit.AddTableFile e f = some e' →
      e'.HasLastSequence = true ∧
      e'.GetLastSequence =
        (if e.HasLastSequence = true ∧
            f.fd.largest_seqno ≤ e.GetLastSequence
         then e.GetLastSequence else f.fd.largest_seqno)) := by
  have hiff : ∀ (e : VersionEdit) (ls : Nat),
      (if e.has_last_sequence_ = true then max e.last_sequence_ ls
       else ls) =
      (if e.has_last_sequence_ = true ∧ ls ≤ e.last_sequence_
       then e.last_sequence_ else ls) := by
    intro e ls
    by_cases hb : e.has_last_sequence_ = true <;>
      by_cases hle : ls ≤ e.last_sequence_
    · simp [hb, hle, Nat.max_def]
    · simp [hb, hle, Nat.max_def]
      intro h2
      omega
    · simp [hb, hle, Nat.max_def]
    · simp [hb, hle, Nat.max_def]
  refine ⟨?_, ?_, ?_⟩
  · intro ops e hcall hne h
    cases ops with
    | nil => exact absurd rfl hne
    | cons op rest =>
      rw [runOps, runFrom] at h
      cases happ : applyOp VersionEdit.init op with
      | none => rw [happ] at h; exact absurd h (by simp)
      | some e1 =>
        rw [happ] at h
        have hop := hcall op (List.mem_cons_self op rest)
        have hrest := fun o ho => hcall o (List.mem_cons_of_mem op ho)
        have hstep := applyOp_add_lastSeq hop happ
        have hstep2 : e1.last_sequence_ = op.largestSeqArg := by
          rw [hstep.2, if_neg]
          intro hc
          exact nomatch hc
        have hih := runFrom_adds_lastSeq hstep.1 hrest h
        refine ⟨hih.1, ?_⟩
        rw [VersionEdit.GetLastSequence, hih.2, hstep2, List.map_cons,
          List.foldl_cons, Nat.zero_max]
  · intro e level f e' h
    have hstep := addFile_lastSeq h
    refine ⟨hstep.1, ?_⟩
    rw [VersionEdit.GetLastSequence, VersionEdit.GetLastSequence,
      VersionEdit.HasLastSequence, hstep.2, hiff]
  · intro e f e' h
    have hstep := addTableFile_lastSeq h
    refine ⟨hstep.1, ?_⟩
    rw [VersionEdit.GetLastSequence, VersionEdit.GetLastSequence,
      VersionEdit.HasLastSequence, hstep.2, hiff]

/-- Witness for `C2_lastSequence` at a concrete two-call sequence with
largest seqnos 9 and 4. -/
theorem C2_witness :
    (∀ op ∈ opsC2, op.isAddCall = true) ∧ opsC2 ≠ [] ∧
    runOps opsC2 = some editC2 ∧
    editC2.HasLastSequence = true ∧
    editC2.GetLastSequence = (opsC2.map Op.largestSeqArg).foldl max 0 :=
  ⟨by decide, by decide, by decide,
   C2_lastSequence.1 opsC2 editC2 (by decide) (by decide) (by decide)⟩

/-- Claim C7, counterexample: for `pathId = 16` the 64-bit packing
`number | (pathId << 60)` wraps (`16 << 60 = 2^64`), so `GetPathId()`
returns 0, not 16: the claimed round-trip fails for path ids with more
than 4 significant bits. -/
theorem C7_counterexample :
    (FileDescriptor.ofSize 3 16 0).GetPathId = 0 ∧
    (FileDescriptor.ofSize 3 16 0).GetPathId ≠ 16 := by
  decide

theorem pack_eq_of_bounds {number path_id : Nat}
    (hn : number ≤ kFileNumberMask) (hp : path_id < 16) :
    PackFileNumberAndPathId number path_id =
      number ||| path_id <<< 60 := by
  have hn60 : number < 2 ^ 60 := by
    rw [kFileNumberMask] at hn
    omega
  have hs : path_id <<< 60 < 2 ^ 64 := by
    rw [Nat.shiftLeft_eq]
    calc path_id * 2 ^ 60 < 16 * 2 ^ 60 := by
          have h60 : (0 : Nat) < 2 ^ 60 := by norm_num
          exact (Nat.mul_lt_mul_right h60).mpr hp
      _ = 2 ^ 64 := by norm_num
  have hx : number ||| path_id <<< 60 < 2 ^ 64 :=
    Nat.or_lt_two_pow (lt_trans hn60 (by norm_num)) hs
  rw [PackFileNumberAndPathId, Nat.mod_eq_of_lt hx]

/-- Claim C7, amended: for every `number` of at most 60 significant bits
and every `pathId < 16` (so that `pathId << 60` fits in 64 bits, per the
spec invariant), a `FileDescriptor` constructed from `(number, pathId)`
recovers both through `GetNumber()` (`packed & kFileNumberMask`) and
`GetPathId()` (`packed / (kFileNumberMask + 1)`). -/
theorem C7_amended (number path_id : Nat)
    (sub father : List (Nat × Nat)) (fsize sub_fsize : Nat)
    (smallest largest : Nat)
    (hn : number ≤ kFileNumberMask) (hp : path_id < 16) :
    (FileDescriptor.ofAll number path_id sub father fsize sub_fsize
        smallest largest).GetNumber = number ∧
    (FileDescriptor.ofAll number path_id sub father fsize sub_fsize
        smallest largest).GetPathId = path_id := by
  have hn60 : number < 2 ^ 60 := by
    rw [kFileNumberMask] at hn
    omega
  have hnbit : ∀ i, 60 ≤ i → number.testBit i = false := by
    intro i hi
    exact Nat.testBit_lt_two_pow
      (lt_of_lt_of_le hn60 (Nat.pow_le_pow_right (by norm_num) hi))
  have hmask : kFileNumberMask = 2 ^ 60 - 1 := by norm_num [kFileNumberMask]
  constructor
  · rw [FileDescriptor.GetNumber, FileDescriptor.ofAll,
      pack_eq_of_bounds hn hp, hmask]
    apply Nat.eq_of_testBit_eq
    intro i
    rw [Nat.testBit_land, Nat.testBit_lor, Nat.testBit_shiftLeft,
      Nat.testBit_two_pow_sub_one]
    by_cases hi : i < 60
    · have : ¬60 ≤ i := by omega
      simp [hi, this]
    · have h60 : 60 ≤ i := by omega
      simp [hi, hnbit i h60]
  · rw [FileDescriptor.GetPathId, FileDescriptor.ofAll,
      pack_eq_of_bounds hn hp, hmask]
    have hm1 : 2 ^ 60 - 1 + 1 = 2 ^ 60 := by norm_num
    rw [hm1, ← Nat.shiftRight_eq_div_pow]
    have hshift : (number ||| path_id <<< 60) >>> 60 = path_id := by
      apply Nat.eq_of_testBit_eq
      intro i
      rw [Nat.testBit_shiftRight, Nat.testBit_lor, Nat.testBit_shiftLeft]
      have h60 : 60 ≤ 60 + i := by omega
      simp [hnbit (60 + i) h60, h60]
    rw [hshift, Nat.mod_eq_of_lt (lt_trans hp (by norm_num))]

/-- Witness for `C7_amended` at `(number, pathId) = (5, 3)`. -/
theorem C7_witness :
    5 ≤ kFileNumberMask ∧ 3 < 16 ∧
    (FileDescriptor.ofAll 5 3 [] [] 0 0 0 0).GetNumber = 5 ∧
    (FileDescriptor.ofAll 5 3 [] [] 0 0 0 0).GetPathId = 3 :=
  ⟨by decide, by decide,
   (C7_amended 5 3 [] [] 0 0 0 0 (by decide) (by decide)).1,
   (C7_amended 5 3 [] [] 0 0 0 0 (by decide) (by decide)).2⟩

theorem smallestStep_of_empty {cmp : InternalKey → InternalKey → Int}
    {smallest : InternalKey} (hs : smallest.size = 0)
    (start : InternalKey) :
    smallestStep cmp smallest start = start := by
  rw [smallestStep, if_pos (Or.inl hs)]

theorem largestStep_of_empty {cmp : InternalKey → InternalKey → Int}
    {largest : InternalKey} (hl : largest.size = 0) (end_ : InternalKey) :
    largestStep cmp largest end_ = end_ := by
  rw [largestStep, if_pos (Or.inl hl)]

theorem smallestStep_of_ne {cmp : InternalKey → InternalKey → Int}
    {smallest : InternalKey} (hs : smallest.size ≠ 0)
    (start : InternalKey) :
    smallestStep cmp smallest start =
      (if cmp start smallest < 0 then start else smallest) := by
  rw [smallestStep]
  by_cases h : cmp start smallest < 0
  · rw [if_pos (Or.inr h), if_pos h]
  · rw [if_neg, if_neg h]
    rintro (hc | hc)
    · exact hs hc
    · exact h hc

theorem largestStep_of_ne {cmp : InternalKey → InternalKey → Int}
    {largest : InternalKey} (hl : largest.size ≠ 0) (end_ : InternalKey) :
    largestStep cmp largest end_ =
      (if cmp largest end_ < 0 then end_ else largest) := by
  rw [largestStep]
  by_cases h : cmp largest end_ < 0
  · rw [if_pos (Or.inr h), if_pos h]
  · rw [if_neg, if_neg h]
    rintro (hc | hc)
    · exact hl hc
    · exact h hc

theorem icmp_asymm {cmp : InternalKey → InternalKey → Int}
    (h : IcmpOK cmp) {x y : InternalKey} (h1 : cmp x y < 0) :
    ¬cmp y x < 0 := by
  have := (h.1 x y).mp h1
  omega

theorem icmp_eq_of_not_lt {cmp : InternalKey → InternalKey → Int}
    (h : IcmpOK cmp) {x y : InternalKey} (h1 : ¬cmp x y < 0)
    (h2 : ¬cmp y x < 0) : x = y := by
  refine h.2.1 x y ?_
  have h4 : ¬0 < cmp x y := fun hc => h2 ((h.1 y x).mpr hc)
  omega

theorem smallestStep_comm {cmp : InternalKey → InternalKey → Int}
    (h : IcmpOK cmp) {a b : InternalKey} (ha : a.size ≠ 0)
    (hb : b.size ≠ 0) (s : InternalKey) :
    smallestStep cmp (smallestStep cmp s a) b =
      smallestStep cmp (smallestStep cmp s b) a := by
  by_cases hs : s.size = 0
  · rw [smallestStep_of_empty hs, smallestStep_of_empty hs,
      smallestStep_of_ne ha b, smallestStep_of_ne hb a]
    by_cases hba : cmp b a < 0
    · rw [if_pos hba, if_neg (icmp_asymm h hba)]
    · by_cases hab : cmp a b < 0
      · rw [if_neg hba, if_pos hab]
      · rw [if_neg hba, if_neg hab]
        exact icmp_eq_of_not_lt h hab hba
  · rw [smallestStep_of_ne hs a, smallestStep_of_ne hs b]
    by_cases has : cmp a s < 0 <;> by_cases hbs : cmp b s < 0
    · rw [if_pos has, if_pos hbs, smallestStep_of_ne ha b,
        smallestStep_of_ne hb a]
      by_cases hba : cmp b a < 0
      · rw [if_pos hba, if_neg (icmp_asymm h hba)]
      · by_cases hab : cmp a b < 0
        · rw [if_neg hba, if_pos hab]
        · rw [if_neg hba, if_neg hab]
          exact icmp_eq_of_not_lt h hab hba
    · rw [if_pos has, if_neg hbs, smallestStep_of_ne ha b,
        smallestStep_of_ne hs a, if_pos has, if_neg]
      intro hba
      exact hbs (h.2.2 b a s hba has)
    · rw [if_neg has, if_pos hbs, smallestStep_of_ne hs b, if_pos hbs,
        smallestStep_of_ne hb a, if_neg]
      intro hab
      exact has (h.2.2 a b s hab hbs)
    · rw [if_neg has, if_neg hbs, smallestStep_of_ne hs b, if_neg hbs,
        smallestStep_of_ne hs a, if_neg has]

theorem largestStep_comm {cmp : InternalKey → InternalKey → Int}
    (h : IcmpOK cmp) {a b : InternalKey} (ha : a.size ≠ 0)
    (hb : b.size ≠ 0) (l : InternalKey) :
    largestStep cmp (largestStep cmp l a) b =
      largestStep cmp (largestStep cmp l b) a := by
  by_cases hl : l.size = 0
  · rw [largestStep_of_empty hl, largestStep_of_empty hl,
      largestStep_of_ne ha b, largestStep_of_ne hb a]
    by_cases hab : cmp a b < 0
    · rw [if_pos hab, if_neg (icmp_asymm h hab)]
    · by_cases hba : cmp b a < 0
      · rw [if_neg hab, if_pos hba]
      · rw [if_neg hab, if_neg hba]
        exact icmp_eq_of_not_lt h hab hba
  · rw [largestStep_of_ne hl a, largestStep_of_ne hl b]
    by_cases hla : cmp l a < 0 <;> by_cases hlb : cmp l b < 0
    · rw [if_pos hla, if_pos hlb, largestStep_of_ne ha b,
        largestStep_of_ne hb a]
      by_cases hab : cmp a b < 0
      · rw [if_pos hab, if_neg (icmp_asymm h hab)]
      · by_cases hba : cmp b a < 0
        · rw [if_neg hab, if_pos hba]
        · rw [if_neg hab, if_neg hba]
          exact icmp_eq_of_not_lt h hab hba
    · rw [if_pos hla, if_neg hlb, largestStep_of_ne ha b,
        largestStep_of_ne hl a, if_pos hla, if_neg]
      intro hab
      exact hlb (h.2.2 l a b hla hab)
    · rw [if_neg hla, if_pos hlb, largestStep_of_ne hl b, if_pos hlb,
        largestStep_of_ne hb a, if_neg]
      intro hba
      exact hla (h.2.2 l b a hlb hba)
    · rw [if_neg hla, if_neg hlb, largestStep_of_ne hl b, if_neg hlb,
        largestStep_of_ne hl a, if_neg hla]

theorem applyRange_comm {cmp : InternalKey → InternalKey → Int}
    (h : IcmpOK cmp) {x y : InternalKey × InternalKey × Nat}
    (hx1 : x.1.size ≠ 0) (hx2 : x.2.1.size ≠ 0)
    (hy1 : y.1.size ≠ 0) (hy2 : y.2.1.size ≠ 0) (f : FileMetaData) :
    applyRange cmp (applyRange cmp f x) y =
      applyRange cmp (applyRange cmp f y) x := by
  simp only [applyRange, FileMetaData.UpdateBoundariesForRange,
    FileMetaData.mk.injEq, FileDescriptor.mk.injEq, and_true, true_and]
  refine ⟨⟨?_, ?_⟩, ?_, ?_⟩
  · exact Nat.min_right_comm _ _ _
  · exact Nat.max_right_comm _ _ _
  · exact smallestStep_comm h hx1 hy1 f.smallest
  · exact largestStep_comm h hx2 hy2 f.largest

theorem valid_size_ne {k : InternalKey} (h : k.Valid = true) :
    k.size ≠ 0 := by
  simpa [InternalKey.Valid, InternalKey.size] using h

/-- Claim C8: a single `UpdateBoundariesForRange` call widens boundaries
exactly as described (smallest replaced when previously empty or the
start compares below it, largest replaced when previously empty or below
the end, seqnos widened with min/max), and, for a law-abiding comparator
and ranges with valid keys, applying a collection of ranges in any order
yields the same final boundaries. -/
theorem C8_updateBoundaries (cmp : InternalKey → InternalKey → Int)
    (hcmp : IcmpOK cmp) :
    (∀ (f : FileMetaData) (start end_ : InternalKey) (seq : Nat),
      (f.UpdateBoundariesForRange start end_ seq cmp).smallest =
        (if f.smallest.size = 0 ∨ cmp start f.smallest < 0 then start
         else f.smallest) ∧
      (f.UpdateBoundariesForRange start end_ seq cmp).largest =
        (if f.largest.size = 0 ∨ cmp f.largest end_ < 0 then end_
         else f.largest) ∧
      (f.UpdateBoundariesForRange start end_ seq cmp).fd.smallest_seqno =
        min f.fd.smallest_seqno seq ∧
      (f.UpdateBoundariesForRange start end_ seq cmp).fd.largest_seqno =
        max f.fd.largest_seqno seq) ∧
    (∀ (rs1 rs2 : List (InternalKey × InternalKey × Nat))
        (f : FileMetaData),
      (∀ r ∈ rs1, r.1.Valid = true ∧ r.2.1.Valid = true) →
      rs1.Perm rs2 →
      rs1.foldl (applyRange cmp) f = rs2.foldl (applyRange cmp) f) := by
  constructor
  · intro f start end_ seq
    exact ⟨rfl, rfl, rfl, rfl⟩
  · intro rs1 rs2 f hvalid hperm
    refine hperm.foldl_eq' ?_ f
    intro x hx y hy z
    have hxv := hvalid x hx
    have hyv := hvalid y hy
    exact applyRange_comm hcmp (valid_size_ne hxv.1) (valid_size_ne hxv.2)
      (valid_size_ne hyv.1) (valid_size_ne hyv.2) z

theorem cmpLex_lt_iff (a b : InternalKey) : cmpLex a b < 0 ↔ a < b := by
  rcases lt_trichotomy a b with h | h | h
  · simp [cmpLex, h]
  · subst h
    simp [cmpLex, lt_irrefl]
  · have h1 : ¬a < b := lt_asymm h
    simp [cmpLex, h1, h]

theorem icmpOK_cmpLex : IcmpOK cmpLex := by
  refine ⟨?_, ?_, ?_⟩
  · intro a b
    rcases lt_trichotomy a b with h | h | h
    · simp [cmpLex, h, lt_asymm h]
    · subst h
      simp [cmpLex, lt_irrefl]
    · simp [cmpLex, h, lt_asymm h]
  · intro a b hab
    by_cases h1 : a < b
    · simp [cmpLex, h1] at hab
    · by_cases h2 : b < a
      · simp [cmpLex, h1, h2] at hab
      · exact le_antisymm (not_lt.mp h2) (not_lt.mp h1)
  · intro a b c hab hbc
    rw [cmpLex_lt_iff] at hab hbc ⊢
    exact lt_trans hab hbc

/-- Witness for `C8_updateBoundaries` with the lexicographic comparator on
a concrete pair of valid ranges applied in both orders. -/
theorem C8_witness :
    (rangesW.all (fun r => r.1.Valid && r.2.1.Valid)) = true ∧
    rangesW.foldl (applyRange cmpLex) ({} : FileMetaData) =
      rangesW.reverse.foldl (applyRange cmpLex) ({} : FileMetaData) :=
  ⟨by decide,
   (C8_updateBoundaries cmpLex icmpOK_cmpLex).2 rangesW rangesW.reverse
     ({} : FileMetaData) (by decide) (rangesW.reverse_perm).symm⟩

/-- Claim C1: for every `VersionEdit` built through the mutation API
(using only currently-defined record tags), decoding the encoding yields
an edit on which every accessor agrees with the original — in particular
`GetNewFiles` and `GetBlobFileAdditions` as ordered lists and
`GetDeletedFiles` and `GetNewGuards` as (sorted, duplicate-free) sets; in
fact the decoded edit is equal to the original. -/
theorem C1_roundtrip (ops : List Op) (e : VersionEdit)
    (h : runOps ops = some e) :
    ∃ d, VersionEdit.DecodeFrom e.EncodeTo = Except.ok d ∧
      d.GetNewFiles = e.GetNewFiles ∧
      d.GetBlobFileAdditions = e.GetBlobFileAdditions ∧
      d.GetDeletedFiles = e.GetDeletedFiles ∧
      d.GetNewGuards = e.GetNewGuards ∧
      d = e :=
  ⟨e, decode_encode_of_WF (editWF_runOps h), rfl, rfl, rfl, rfl, rfl⟩

/-- Witness for `C1_roundtrip` on a concrete mutation sequence. -/
theorem C1_witness :
    runOps opsW = some editW ∧
    VersionEdit.DecodeFrom editW.EncodeTo = Except.ok editW :=
  ⟨by decide,
   (C1_roundtrip opsW editW (by decide)).choose_spec.1.trans
     (by rw [(C1_roundtrip opsW editW (by decide)).choose_spec.2.2.2.2.2])⟩
